import Mathlib

/-!
# Verification of the gun-violence data utilities and report generator

A shallow embedding of `src/data_utils.py` and `scripts/generate_html.py`.

* Pandas `DataFrame`s are modelled as Lean lists of typed rows; the column
  schema, where it matters, is modelled separately (`wb_columns`).
* Python `float` literals in the embedded tables are modelled as exact
  rationals (`mkRat`); the claims only compare them against `0`, `1` and `5`,
  which the decimal-to-float conversion preserves.
* The network is modelled as an explicit argument: an outcome value for
  `fetch_world_bank_indicator` (`FetchOutcome`), and a per-year fetch function
  for `fetch_gini`.
* `uuid.uuid4().hex[:12]` draws in the report generator are modelled as an
  explicit stream (list) of identifier strings that is consumed head-first.
-/

/-! ## data_utils.py -/

/-- A row of the DataFrame returned by `fetch_world_bank_indicator`
(columns `country_code`, `country_name`, `value`). -/
structure WBRow where
  country_code : String
  country_name : String
  value : ℚ
deriving DecidableEq, Repr

/-- One element of the records array `data[1]` of the World Bank JSON
envelope: the fields read by the loop body.  `country_id` models
`entry.get("country", {}).get("id", ...)` (`none` when the `country` dict or
the `id` key is absent), `country_name` likewise for the `value` key of the
`country` dict, and `value` models `entry.get("value")` (`none` for a JSON
null). -/
structure WBEntry where
  country_id : Option String
  country_name : Option String
  value : Option ℚ
deriving DecidableEq, Repr

/-- Outcome of the HTTP request plus JSON parsing in
`fetch_world_bank_indicator`.  `error` covers every exception caught by the
`try`/`except` (network failure, non-2xx status, malformed JSON, an entry of
the wrong shape, a non-numeric `value`); `ok data` is a successfully parsed
JSON array whose elements are either `null` (`none`) or a list of record
entries (the metadata element `data[0]` is never inspected, so representing it
the same way is harmless). -/
inductive FetchOutcome where
  | error
  | ok (data : List (Option (List WBEntry)))

/-- The row-building loop of `fetch_world_bank_indicator`: keep an entry iff
its `value` is non-null and its country code has length 3. -/
def wbRows (entries : List WBEntry) : List WBRow :=
  entries.filterMap fun en =>
    match en.value with
    | none => none
    | some v =>
      if (en.country_id.getD "").length = 3 then
        some ⟨en.country_id.getD "", en.country_name.getD "", v⟩
      else
        none

/-- `fetch_world_bank_indicator`: on any caught exception return the empty
frame; on a short envelope (`len(data) < 2`) or a null records element
(`data[1] is None`) return the empty frame; otherwise build the rows. -/
def fetch_world_bank_indicator : FetchOutcome → List WBRow
  | .error => []
  | .ok data =>
    if data.length < 2 then []
    else
      match data[1]? with
      | none => []
      | some none => []
      | some (some entries) => wbRows entries

/-- The column index of the DataFrame returned by
`fetch_world_bank_indicator`.  The two explicit
`pd.DataFrame(columns=["country_code", "country_name", "value"])`
constructions carry the three columns; `pd.DataFrame(rows)` infers the
columns from the row dicts, which yields the three columns when `rows` is
non-empty and *no columns at all* when `rows == []`. -/
def wb_columns : FetchOutcome → List String
  | .error => ["country_code", "country_name", "value"]
  | .ok data =>
    if data.length < 2 then ["country_code", "country_name", "value"]
    else
      match data[1]? with
      | none => ["country_code", "country_name", "value"]
      | some none => ["country_code", "country_name", "value"]
      | some (some entries) =>
        if wbRows entries = [] then [] else ["country_code", "country_name", "value"]

/-! ### Embedded fallback tables (exact transcriptions of the Python dicts; decimal literals as exact rationals) -/

def _POPULATION_FALLBACK : List (String × String × Int) := [
  ("AFG", "Afghanistan", 41128771),
  ("ALB", "Albania", 2842321),
  ("DZA", "Algeria", 44903225),
  ("AGO", "Angola", 34503774),
  ("ARG", "Argentina", 46234830),
  ("ARM", "Armenia", 2780469),
  ("AUS", "Australia", 25978935),
  ("AUT", "Austria", 9041851),
  ("AZE", "Azerbaijan", 10093121),
  ("BHS", "Bahamas", 409984),
  ("BHR", "Bahrain", 1472233),
  ("BGD", "Bangladesh", 169356251),
  ("BRB", "Barbados", 281200),
  ("BLR", "Belarus", 9534954),
  ("BEL", "Belgium", 11584008),
  ("BLZ", "Belize", 405272),
  ("BEN", "Benin", 12996895),
  ("BTN", "Bhutan", 782455),
  ("BOL", "Bolivia", 12224110),
  ("BIH", "Bosnia and Herzegovina", 3233526),
  ("BWA", "Botswana", 2588423),
  ("BRA", "Brazil", 214326223),
  ("BRN", "Brunei", 445373),
  ("BGR", "Bulgaria", 6781953),
  ("BFA", "Burkina Faso", 22100683),
  ("BDI", "Burundi", 12551213),
  ("KHM", "Cambodia", 16767842),
  ("CMR", "Cameroon", 27198628),
  ("CAN", "Canada", 38929902),
  ("CPV", "Cabo Verde", 593149),
  ("CAF", "Central African Republic", 5579144),
  ("TCD", "Chad", 17179740),
  ("CHL", "Chile", 19603733),
  ("CHN", "China", 1412175000),
  ("COL", "Colombia", 51874024),
  ("COM", "Comoros", 821625),
  ("COG", "Congo", 5970424),
  ("COD", "DR Congo", 95894118),
  ("CRI", "Costa Rica", 5180829),
  ("CIV", "Cote d\x27Ivoire", 27478249),
  ("HRV", "Croatia", 3855600),
  ("CUB", "Cuba", 11212191),
  ("CYP", "Cyprus", 1251488),
  ("CZE", "Czech Republic", 10827529),
  ("DNK", "Denmark", 5903037),
  ("DJI", "Djibouti", 1105557),
  ("DOM", "Dominican Republic", 11228821),
  ("ECU", "Ecuador", 17797737),
  ("EGY", "Egypt", 109262178),
  ("SLV", "El Salvador", 6314167),
  ("GNQ", "Equatorial Guinea", 1634466),
  ("ERI", "Eritrea", 3620312),
  ("EST", "Estonia", 1348840),
  ("SWZ", "Eswatini", 1192271),
  ("ETH", "Ethiopia", 123379924),
  ("FJI", "Fiji", 929766),
  ("FIN", "Finland", 5556106),
  ("FRA", "France", 67935660),
  ("GAB", "Gabon", 2341179),
  ("GMB", "Gambia", 2639916),
  ("GEO", "Georgia", 3736400),
  ("DEU", "Germany", 83369843),
  ("GHA", "Ghana", 33475870),
  ("GRC", "Greece", 10384971),
  ("GTM", "Guatemala", 17602431),
  ("GIN", "Guinea", 13531906),
  ("GNB", "Guinea-Bissau", 2060721),
  ("GUY", "Guyana", 808726),
  ("HTI", "Haiti", 11584996),
  ("HND", "Honduras", 10278345),
  ("HUN", "Hungary", 9750149),
  ("ISL", "Iceland", 376248),
  ("IND", "India", 1417173173),
  ("IDN", "Indonesia", 275501339),
  ("IRN", "Iran", 87923432),
  ("IRQ", "Iraq", 43533592),
  ("IRL", "Ireland", 5127170),
  ("ISR", "Israel", 9557500),
  ("ITA", "Italy", 58940425),
  ("JAM", "Jamaica", 2827695),
  ("JPN", "Japan", 125124989),
  ("JOR", "Jordan", 11148278),
  ("KAZ", "Kazakhstan", 19397998),
  ("KEN", "Kenya", 54027487),
  ("KWT", "Kuwait", 4268873),
  ("KGZ", "Kyrgyzstan", 6747815),
  ("LAO", "Laos", 7529475),
  ("LVA", "Latvia", 1883008),
  ("LBN", "Lebanon", 5489739),
  ("LSO", "Lesotho", 2281454),
  ("LBR", "Liberia", 5302681),
  ("LBY", "Libya", 6812341),
  ("LTU", "Lithuania", 2831639),
  ("LUX", "Luxembourg", 660809),
  ("MDG", "Madagascar", 29611714),
  ("MWI", "Malawi", 19889742),
  ("MYS", "Malaysia", 33938221),
  ("MLI", "Mali", 22593590),
  ("MLT", "Malta", 531113),
  ("MRT", "Mauritania", 4614974),
  ("MUS", "Mauritius", 1265740),
  ("MEX", "Mexico", 127504125),
  ("MDA", "Moldova", 2615199),
  ("MNG", "Mongolia", 3398366),
  ("MNE", "Montenegro", 616177),
  ("MAR", "Morocco", 37457971),
  ("MOZ", "Mozambique", 32969518),
  ("MMR", "Myanmar", 54179306),
  ("NAM", "Namibia", 2567012),
  ("NPL", "Nepal", 30034989),
  ("NLD", "Netherlands", 17590672),
  ("NZL", "New Zealand", 5123200),
  ("NIC", "Nicaragua", 6948392),
  ("NER", "Niger", 25252722),
  ("NGA", "Nigeria", 218541212),
  ("NOR", "Norway", 5457127),
  ("OMN", "Oman", 4576298),
  ("PAK", "Pakistan", 231402117),
  ("PAN", "Panama", 4408581),
  ("PNG", "Papua New Guinea", 10142619),
  ("PRY", "Paraguay", 6780744),
  ("PER", "Peru", 33684208),
  ("PHL", "Philippines", 115559009),
  ("POL", "Poland", 36821749),
  ("PRT", "Portugal", 10352042),
  ("QAT", "Qatar", 2695122),
  ("ROU", "Romania", 19659267),
  ("RUS", "Russia", 144236933),
  ("RWA", "Rwanda", 13461888),
  ("SAU", "Saudi Arabia", 36408820),
  ("SEN", "Senegal", 17316449),
  ("SRB", "Serbia", 6664449),
  ("SLE", "Sierra Leone", 8420641),
  ("SGP", "Singapore", 5637022),
  ("SVK", "Slovakia", 5643453),
  ("SVN", "Slovenia", 2119675),
  ("SOM", "Somalia", 17597511),
  ("ZAF", "South Africa", 59893885),
  ("KOR", "South Korea", 51628117),
  ("SSD", "South Sudan", 10913164),
  ("ESP", "Spain", 47778340),
  ("LKA", "Sri Lanka", 22156000),
  ("SDN", "Sudan", 45657202),
  ("SUR", "Suriname", 612985),
  ("SWE", "Sweden", 10486941),
  ("CHE", "Switzerland", 8775760),
  ("SYR", "Syria", 22125249),
  ("TWN", "Taiwan", 23894394),
  ("TJK", "Tajikistan", 9952787),
  ("TZA", "Tanzania", 63588334),
  ("THA", "Thailand", 71697030),
  ("TLS", "Timor-Leste", 1341296),
  ("TGO", "Togo", 8848699),
  ("TTO", "Trinidad and Tobago", 1525663),
  ("TUN", "Tunisia", 12356117),
  ("TUR", "Turkey", 84775404),
  ("TKM", "Turkmenistan", 6341855),
  ("UGA", "Uganda", 45853778),
  ("UKR", "Ukraine", 43792855),
  ("ARE", "United Arab Emirates", 9441129),
  ("GBR", "United Kingdom", 67508936),
  ("USA", "United States", 333287557),
  ("URY", "Uruguay", 3422794),
  ("UZB", "Uzbekistan", 35163944),
  ("VEN", "Venezuela", 28301696),
  ("VNM", "Vietnam", 98186856),
  ("YEM", "Yemen", 33696614),
  ("ZMB", "Zambia", 19473125),
  ("ZWE", "Zimbabwe", 15993524)]

def _GINI_FALLBACK : List (String × String × ℚ) := [
  ("ALB", "Albania", mkRat 30 1),
  ("DZA", "Algeria", mkRat 138 5),
  ("AGO", "Angola", mkRat 513 10),
  ("ARG", "Argentina", mkRat 423 10),
  ("ARM", "Armenia", mkRat 299 10),
  ("AUS", "Australia", mkRat 343 10),
  ("AUT", "Austria", mkRat 61 2),
  ("AZE", "Azerbaijan", mkRat 133 5),
  ("BGD", "Bangladesh", mkRat 162 5),
  ("BLR", "Belarus", mkRat 253 10),
  ("BEL", "Belgium", mkRat 136 5),
  ("BLZ", "Belize", mkRat 533 10),
  ("BEN", "Benin", mkRat 189 5),
  ("BTN", "Bhutan", mkRat 187 5),
  ("BOL", "Bolivia", mkRat 218 5),
  ("BIH", "Bosnia and Herzegovina", mkRat 33 1),
  ("BWA", "Botswana", mkRat 533 10),
  ("BRA", "Brazil", mkRat 529 10),
  ("BGR", "Bulgaria", mkRat 403 10),
  ("BFA", "Burkina Faso", mkRat 473 10),
  ("BDI", "Burundi", mkRat 193 5),
  ("KHM", "Cambodia", mkRat 38 1),
  ("CMR", "Cameroon", mkRat 233 5),
  ("CAN", "Canada", mkRat 333 10),
  ("CAF", "Central African Republic", mkRat 281 5),
  ("TCD", "Chad", mkRat 75 2),
  ("CHL", "Chile", mkRat 449 10),
  ("CHN", "China", mkRat 191 5),
  ("COL", "Colombia", mkRat 103 2),
  ("COM", "Comoros", mkRat 453 10),
  ("COG", "Congo", mkRat 489 10),
  ("COD", "DR Congo", mkRat 421 10),
  ("CRI", "Costa Rica", mkRat 241 5),
  ("CIV", "Cote d\x27Ivoire", mkRat 186 5),
  ("HRV", "Croatia", mkRat 297 10),
  ("CYP", "Cyprus", mkRat 157 5),
  ("CZE", "Czech Republic", mkRat 253 10),
  ("DNK", "Denmark", mkRat 141 5),
  ("DJI", "Djibouti", mkRat 208 5),
  ("DOM", "Dominican Republic", mkRat 198 5),
  ("ECU", "Ecuador", mkRat 473 10),
  ("EGY", "Egypt", mkRat 63 2),
  ("SLV", "El Salvador", mkRat 194 5),
  ("EST", "Estonia", mkRat 152 5),
  ("SWZ", "Eswatini", mkRat 273 5),
  ("ETH", "Ethiopia", mkRat 35 1),
  ("FJI", "Fiji", mkRat 367 10),
  ("FIN", "Finland", mkRat 277 10),
  ("FRA", "France", mkRat 158 5),
  ("GAB", "Gabon", mkRat 38 1),
  ("GMB", "Gambia", mkRat 359 10),
  ("GEO", "Georgia", mkRat 69 2),
  ("DEU", "Germany", mkRat 317 10),
  ("GHA", "Ghana", mkRat 87 2),
  ("GRC", "Greece", mkRat 331 10),
  ("GTM", "Guatemala", mkRat 483 10),
  ("GIN", "Guinea", mkRat 148 5),
  ("GNB", "Guinea-Bissau", mkRat 507 10),
  ("GUY", "Guyana", mkRat 451 10),
  ("HTI", "Haiti", mkRat 411 10),
  ("HND", "Honduras", mkRat 241 5),
  ("HUN", "Hungary", mkRat 153 5),
  ("ISL", "Iceland", mkRat 261 10),
  ("IND", "India", mkRat 357 10),
  ("IDN", "Indonesia", mkRat 379 10),
  ("IRN", "Iran", mkRat 409 10),
  ("IRQ", "Iraq", mkRat 59 2),
  ("IRL", "Ireland", mkRat 153 5),
  ("ISR", "Israel", mkRat 39 1),
  ("ITA", "Italy", mkRat 176 5),
  ("JAM", "Jamaica", mkRat 35 1),
  ("JPN", "Japan", mkRat 329 10),
  ("JOR", "Jordan", mkRat 337 10),
  ("KAZ", "Kazakhstan", mkRat 146 5),
  ("KEN", "Kenya", mkRat 204 5),
  ("KOR", "South Korea", mkRat 157 5),
  ("KGZ", "Kyrgyzstan", mkRat 29 1),
  ("LAO", "Laos", mkRat 194 5),
  ("LVA", "Latvia", mkRat 351 10),
  ("LBN", "Lebanon", mkRat 159 5),
  ("LSO", "Lesotho", mkRat 449 10),
  ("LBR", "Liberia", mkRat 353 10),
  ("LTU", "Lithuania", mkRat 369 10),
  ("LUX", "Luxembourg", mkRat 177 5),
  ("MDG", "Madagascar", mkRat 213 5),
  ("MWI", "Malawi", mkRat 447 10),
  ("MYS", "Malaysia", mkRat 206 5),
  ("MLI", "Mali", mkRat 361 10),
  ("MLT", "Malta", mkRat 307 10),
  ("MRT", "Mauritania", mkRat 163 5),
  ("MUS", "Mauritius", mkRat 184 5),
  ("MEX", "Mexico", mkRat 227 5),
  ("MDA", "Moldova", mkRat 26 1),
  ("MNG", "Mongolia", mkRat 327 10),
  ("MNE", "Montenegro", mkRat 184 5),
  ("MAR", "Morocco", mkRat 79 2),
  ("MOZ", "Mozambique", mkRat 54 1),
  ("MMR", "Myanmar", mkRat 307 10),
  ("NAM", "Namibia", mkRat 591 10),
  ("NPL", "Nepal", mkRat 164 5),
  ("NLD", "Netherlands", mkRat 57 2),
  ("NZL", "New Zealand", mkRat 36 1),
  ("NIC", "Nicaragua", mkRat 231 5),
  ("NER", "Niger", mkRat 373 10),
  ("NGA", "Nigeria", mkRat 351 10),
  ("NOR", "Norway", mkRat 138 5),
  ("PAK", "Pakistan", mkRat 148 5),
  ("PAN", "Panama", mkRat 249 5),
  ("PNG", "Papua New Guinea", mkRat 419 10),
  ("PRY", "Paraguay", mkRat 451 10),
  ("PER", "Peru", mkRat 219 5),
  ("PHL", "Philippines", mkRat 423 10),
  ("POL", "Poland", mkRat 297 10),
  ("PRT", "Portugal", mkRat 168 5),
  ("ROU", "Romania", mkRat 174 5),
  ("RUS", "Russia", mkRat 36 1),
  ("RWA", "Rwanda", mkRat 437 10),
  ("SAU", "Saudi Arabia", mkRat 459 10),
  ("SEN", "Senegal", mkRat 403 10),
  ("SRB", "Serbia", mkRat 181 5),
  ("SLE", "Sierra Leone", mkRat 357 10),
  ("SGP", "Singapore", mkRat 459 10),
  ("SVK", "Slovakia", mkRat 126 5),
  ("SVN", "Slovenia", mkRat 123 5),
  ("ZAF", "South Africa", mkRat 63 1),
  ("ESP", "Spain", mkRat 33 1),
  ("LKA", "Sri Lanka", mkRat 377 10),
  ("SDN", "Sudan", mkRat 171 5),
  ("SUR", "Suriname", mkRat 579 10),
  ("SWE", "Sweden", mkRat 30 1),
  ("CHE", "Switzerland", mkRat 331 10),
  ("TJK", "Tajikistan", mkRat 34 1),
  ("TZA", "Tanzania", mkRat 81 2),
  ("THA", "Thailand", mkRat 349 10),
  ("TLS", "Timor-Leste", mkRat 287 10),
  ("TGO", "Togo", mkRat 431 10),
  ("TTO", "Trinidad and Tobago", mkRat 403 10),
  ("TUN", "Tunisia", mkRat 164 5),
  ("TUR", "Turkey", mkRat 419 10),
  ("TKM", "Turkmenistan", mkRat 204 5),
  ("UGA", "Uganda", mkRat 427 10),
  ("UKR", "Ukraine", mkRat 128 5),
  ("ARE", "United Arab Emirates", mkRat 65 2),
  ("GBR", "United Kingdom", mkRat 351 10),
  ("USA", "United States", mkRat 199 5),
  ("URY", "Uruguay", mkRat 201 5),
  ("UZB", "Uzbekistan", mkRat 353 10),
  ("VEN", "Venezuela", mkRat 224 5),
  ("VNM", "Vietnam", mkRat 184 5),
  ("YEM", "Yemen", mkRat 367 10),
  ("ZMB", "Zambia", mkRat 571 10),
  ("ZWE", "Zimbabwe", mkRat 503 10)]

def _GUN_HOMICIDE_FALLBACK : List (String × String × ℚ) := [
  ("AFG", "Afghanistan", mkRat 47 10),
  ("ALB", "Albania", mkRat 13 10),
  ("DZA", "Algeria", mkRat 1 2),
  ("AGO", "Angola", mkRat 24 5),
  ("ARG", "Argentina", mkRat 11 5),
  ("ARM", "Armenia", mkRat 2 5),
  ("AUS", "Australia", mkRat 3 20),
  ("AUT", "Austria", mkRat 3 20),
  ("AZE", "Azerbaijan", mkRat 3 5),
  ("BHS", "Bahamas", mkRat 49 2),
  ("BHR", "Bahrain", mkRat 1 10),
  ("BGD", "Bangladesh", mkRat 11 10),
  ("BRB", "Barbados", mkRat 37 5),
  ("BLR", "Belarus", mkRat 1 5),
  ("BEL", "Belgium", mkRat 3 10),
  ("BLZ", "Belize", mkRat 97 5),
  ("BEN", "Benin", mkRat 4 5),
  ("BOL", "Bolivia", mkRat 3 1),
  ("BIH", "Bosnia and Herzegovina", mkRat 3 5),
  ("BWA", "Botswana", mkRat 14 5),
  ("BRA", "Brazil", mkRat 219 10),
  ("BGR", "Bulgaria", mkRat 1 2),
  ("BFA", "Burkina Faso", mkRat 3 2),
  ("BDI", "Burundi", mkRat 21 10),
  ("KHM", "Cambodia", mkRat 4 5),
  ("CMR", "Cameroon", mkRat 29 10),
  ("CAN", "Canada", mkRat 3 4),
  ("CAF", "Central African Republic", mkRat 61 10),
  ("TCD", "Chad", mkRat 16 5),
  ("CHL", "Chile", mkRat 21 10),
  ("CHN", "China", mkRat 1 25),
  ("COL", "Colombia", mkRat 131 10),
  ("COG", "Congo", mkRat 47 10),
  ("COD", "DR Congo", mkRat 3 1),
  ("CRI", "Costa Rica", mkRat 63 10),
  ("CIV", "Cote d\x27Ivoire", mkRat 8 5),
  ("HRV", "Croatia", mkRat 3 10),
  ("CUB", "Cuba", mkRat 5 2),
  ("CYP", "Cyprus", mkRat 1 5),
  ("CZE", "Czech Republic", mkRat 3 25),
  ("DNK", "Denmark", mkRat 3 20),
  ("DOM", "Dominican Republic", mkRat 56 5),
  ("ECU", "Ecuador", mkRat 28 5),
  ("EGY", "Egypt", mkRat 2 5),
  ("SLV", "El Salvador", mkRat 35 2),
  ("GNQ", "Equatorial Guinea", mkRat 21 10),
  ("ERI", "Eritrea", mkRat 14 5),
  ("EST", "Estonia", mkRat 3 10),
  ("SWZ", "Eswatini", mkRat 63 10),
  ("ETH", "Ethiopia", mkRat 7 2),
  ("FJI", "Fiji", mkRat 1 2),
  ("FIN", "Finland", mkRat 1 5),
  ("FRA", "France", mkRat 3 10),
  ("GAB", "Gabon", mkRat 12 5),
  ("GEO", "Georgia", mkRat 4 5),
  ("DEU", "Germany", mkRat 3 50),
  ("GHA", "Ghana", mkRat 17 10),
  ("GRC", "Greece", mkRat 2 5),
  ("GTM", "Guatemala", mkRat 37 2),
  ("GIN", "Guinea", mkRat 13 5),
  ("GNB", "Guinea-Bissau", mkRat 17 5),
  ("GUY", "Guyana", mkRat 71 10),
  ("HTI", "Haiti", mkRat 12 1),
  ("HND", "Honduras", mkRat 267 10),
  ("HUN", "Hungary", mkRat 3 25),
  ("ISL", "Iceland", mkRat 0 1),
  ("IND", "India", mkRat 9 10),
  ("IDN", "Indonesia", mkRat 1 10),
  ("IRN", "Iran", mkRat 13 10),
  ("IRQ", "Iraq", mkRat 26 5),
  ("IRL", "Ireland", mkRat 1 5),
  ("ISR", "Israel", mkRat 7 10),
  ("ITA", "Italy", mkRat 7 20),
  ("JAM", "Jamaica", mkRat 307 10),
  ("JPN", "Japan", mkRat 1 100),
  ("JOR", "Jordan", mkRat 1 2),
  ("KAZ", "Kazakhstan", mkRat 1 2),
  ("KEN", "Kenya", mkRat 23 10),
  ("KOR", "South Korea", mkRat 1 50),
  ("KWT", "Kuwait", mkRat 2 5),
  ("KGZ", "Kyrgyzstan", mkRat 6 5),
  ("LVA", "Latvia", mkRat 1 2),
  ("LBN", "Lebanon", mkRat 3 1),
  ("LSO", "Lesotho", mkRat 31 10),
  ("LBR", "Liberia", mkRat 16 5),
  ("LBY", "Libya", mkRat 9 2),
  ("LTU", "Lithuania", mkRat 2 5),
  ("LUX", "Luxembourg", mkRat 1 10),
  ("MDG", "Madagascar", mkRat 7 5),
  ("MWI", "Malawi", mkRat 1 1),
  ("MYS", "Malaysia", mkRat 3 10),
  ("MLI", "Mali", mkRat 7 2),
  ("MLT", "Malta", mkRat 3 10),
  ("MRT", "Mauritania", mkRat 6 5),
  ("MUS", "Mauritius", mkRat 2 5),
  ("MEX", "Mexico", mkRat 163 10),
  ("MDA", "Moldova", mkRat 1 2),
  ("MNG", "Mongolia", mkRat 3 5),
  ("MNE", "Montenegro", mkRat 7 5),
  ("MAR", "Morocco", mkRat 3 10),
  ("MOZ", "Mozambique", mkRat 3 1),
  ("MMR", "Myanmar", mkRat 23 10),
  ("NAM", "Namibia", mkRat 26 5),
  ("NPL", "Nepal", mkRat 9 10),
  ("NLD", "Netherlands", mkRat 1 5),
  ("NZL", "New Zealand", mkRat 9 50),
  ("NIC", "Nicaragua", mkRat 53 10),
  ("NER", "Niger", mkRat 17 10),
  ("NGA", "Nigeria", mkRat 16 5),
  ("NOR", "Norway", mkRat 1 10),
  ("OMN", "Oman", mkRat 1 5),
  ("PAK", "Pakistan", mkRat 3 1),
  ("PAN", "Panama", mkRat 39 5),
  ("PNG", "Papua New Guinea", mkRat 28 5),
  ("PRY", "Paraguay", mkRat 11 2),
  ("PER", "Peru", mkRat 37 10),
  ("PHL", "Philippines", mkRat 27 5),
  ("POL", "Poland", mkRat 2 25),
  ("PRT", "Portugal", mkRat 3 10),
  ("QAT", "Qatar", mkRat 1 10),
  ("ROU", "Romania", mkRat 1 10),
  ("RUS", "Russia", mkRat 27 10),
  ("RWA", "Rwanda", mkRat 11 10),
  ("SAU", "Saudi Arabia", mkRat 3 5),
  ("SEN", "Senegal", mkRat 7 5),
  ("SRB", "Serbia", mkRat 1 2),
  ("SLE", "Sierra Leone", mkRat 9 5),
  ("SGP", "Singapore", mkRat 1 50),
  ("SVK", "Slovakia", mkRat 1 5),
  ("SVN", "Slovenia", mkRat 1 10),
  ("SOM", "Somalia", mkRat 28 5),
  ("ZAF", "South Africa", mkRat 51 5),
  ("SSD", "South Sudan", mkRat 13 2),
  ("ESP", "Spain", mkRat 3 25),
  ("LKA", "Sri Lanka", mkRat 7 5),
  ("SDN", "Sudan", mkRat 51 10),
  ("SUR", "Suriname", mkRat 51 10),
  ("SWE", "Sweden", mkRat 2 5),
  ("CHE", "Switzerland", mkRat 3 20),
  ("SYR", "Syria", mkRat 3 1),
  ("TJK", "Tajikistan", mkRat 1 2),
  ("TZA", "Tanzania", mkRat 23 10),
  ("THA", "Thailand", mkRat 5 2),
  ("TLS", "Timor-Leste", mkRat 1 1),
  ("TGO", "Togo", mkRat 23 10),
  ("TTO", "Trinidad and Tobago", mkRat 203 10),
  ("TUN", "Tunisia", mkRat 3 10),
  ("TUR", "Turkey", mkRat 9 5),
  ("TKM", "Turkmenistan", mkRat 1 1),
  ("UGA", "Uganda", mkRat 33 10),
  ("UKR", "Ukraine", mkRat 8 5),
  ("ARE", "United Arab Emirates", mkRat 3 10),
  ("GBR", "United Kingdom", mkRat 1 25),
  ("USA", "United States", mkRat 223 50),
  ("URY", "Uruguay", mkRat 7 2),
  ("UZB", "Uzbekistan", mkRat 1 2),
  ("VEN", "Venezuela", mkRat 333 10),
  ("VNM", "Vietnam", mkRat 1 2),
  ("YEM", "Yemen", mkRat 24 5),
  ("ZMB", "Zambia", mkRat 14 5),
  ("ZWE", "Zimbabwe", mkRat 5 2)]

def _DRUG_OFFENSE_FALLBACK : List (String × String × ℚ) := [
  ("ALB", "Albania", mkRat 45 1),
  ("DZA", "Algeria", mkRat 85 1),
  ("ARG", "Argentina", mkRat 102 1),
  ("ARM", "Armenia", mkRat 38 1),
  ("AUS", "Australia", mkRat 605 1),
  ("AUT", "Austria", mkRat 340 1),
  ("AZE", "Azerbaijan", mkRat 42 1),
  ("BHS", "Bahamas", mkRat 310 1),
  ("BGD", "Bangladesh", mkRat 72 1),
  ("BLR", "Belarus", mkRat 120 1),
  ("BEL", "Belgium", mkRat 340 1),
  ("BLZ", "Belize", mkRat 195 1),
  ("BEN", "Benin", mkRat 12 1),
  ("BOL", "Bolivia", mkRat 65 1),
  ("BIH", "Bosnia and Herzegovina", mkRat 75 1),
  ("BWA", "Botswana", mkRat 210 1),
  ("BRA", "Brazil", mkRat 155 1),
  ("BGR", "Bulgaria", mkRat 105 1),
  ("BFA", "Burkina Faso", mkRat 8 1),
  ("KHM", "Cambodia", mkRat 48 1),
  ("CMR", "Cameroon", mkRat 15 1),
  ("CAN", "Canada", mkRat 280 1),
  ("CHL", "Chile", mkRat 210 1),
  ("CHN", "China", mkRat 35 1),
  ("COL", "Colombia", mkRat 120 1),
  ("CRI", "Costa Rica", mkRat 105 1),
  ("HRV", "Croatia", mkRat 165 1),
  ("CYP", "Cyprus", mkRat 185 1),
  ("CZE", "Czech Republic", mkRat 85 1),
  ("DNK", "Denmark", mkRat 380 1),
  ("DOM", "Dominican Republic", mkRat 52 1),
  ("ECU", "Ecuador", mkRat 68 1),
  ("EGY", "Egypt", mkRat 35 1),
  ("SLV", "El Salvador", mkRat 42 1),
  ("EST", "Estonia", mkRat 185 1),
  ("ETH", "Ethiopia", mkRat 15 1),
  ("FIN", "Finland", mkRat 420 1),
  ("FRA", "France", mkRat 290 1),
  ("GEO", "Georgia", mkRat 125 1),
  ("DEU", "Germany", mkRat 325 1),
  ("GHA", "Ghana", mkRat 28 1),
  ("GRC", "Greece", mkRat 125 1),
  ("GTM", "Guatemala", mkRat 35 1),
  ("GUY", "Guyana", mkRat 78 1),
  ("HND", "Honduras", mkRat 38 1),
  ("HUN", "Hungary", mkRat 55 1),
  ("ISL", "Iceland", mkRat 310 1),
  ("IND", "India", mkRat 18 1),
  ("IDN", "Indonesia", mkRat 38 1),
  ("IRN", "Iran", mkRat 450 1),
  ("IRQ", "Iraq", mkRat 22 1),
  ("IRL", "Ireland", mkRat 290 1),
  ("ISR", "Israel", mkRat 210 1),
  ("ITA", "Italy", mkRat 165 1),
  ("JAM", "Jamaica", mkRat 135 1),
  ("JPN", "Japan", mkRat 22 1),
  ("JOR", "Jordan", mkRat 42 1),
  ("KAZ", "Kazakhstan", mkRat 82 1),
  ("KEN", "Kenya", mkRat 48 1),
  ("KOR", "South Korea", mkRat 52 1),
  ("KWT", "Kuwait", mkRat 32 1),
  ("KGZ", "Kyrgyzstan", mkRat 55 1),
  ("LVA", "Latvia", mkRat 85 1),
  ("LBN", "Lebanon", mkRat 95 1),
  ("LTU", "Lithuania", mkRat 95 1),
  ("LUX", "Luxembourg", mkRat 385 1),
  ("MYS", "Malaysia", mkRat 115 1),
  ("MLI", "Mali", mkRat 10 1),
  ("MLT", "Malta", mkRat 155 1),
  ("MUS", "Mauritius", mkRat 145 1),
  ("MEX", "Mexico", mkRat 55 1),
  ("MDA", "Moldova", mkRat 65 1),
  ("MNG", "Mongolia", mkRat 42 1),
  ("MNE", "Montenegro", mkRat 115 1),
  ("MAR", "Morocco", mkRat 85 1),
  ("MOZ", "Mozambique", mkRat 18 1),
  ("MMR", "Myanmar", mkRat 175 1),
  ("NAM", "Namibia", mkRat 110 1),
  ("NPL", "Nepal", mkRat 22 1),
  ("NLD", "Netherlands", mkRat 165 1),
  ("NZL", "New Zealand", mkRat 455 1),
  ("NIC", "Nicaragua", mkRat 32 1),
  ("NGA", "Nigeria", mkRat 20 1),
  ("NOR", "Norway", mkRat 420 1),
  ("PAK", "Pakistan", mkRat 55 1),
  ("PAN", "Panama", mkRat 85 1),
  ("PRY", "Paraguay", mkRat 48 1),
  ("PER", "Peru", mkRat 72 1),
  ("PHL", "Philippines", mkRat 180 1),
  ("POL", "Poland", mkRat 85 1),
  ("PRT", "Portugal", mkRat 155 1),
  ("QAT", "Qatar", mkRat 28 1),
  ("ROU", "Romania", mkRat 35 1),
  ("RUS", "Russia", mkRat 155 1),
  ("SAU", "Saudi Arabia", mkRat 42 1),
  ("SEN", "Senegal", mkRat 22 1),
  ("SRB", "Serbia", mkRat 95 1),
  ("SGP", "Singapore", mkRat 45 1),
  ("SVK", "Slovakia", mkRat 48 1),
  ("SVN", "Slovenia", mkRat 135 1),
  ("ZAF", "South Africa", mkRat 195 1),
  ("ESP", "Spain", mkRat 145 1),
  ("LKA", "Sri Lanka", mkRat 185 1),
  ("SUR", "Suriname", mkRat 55 1),
  ("SWE", "Sweden", mkRat 395 1),
  ("CHE", "Switzerland", mkRat 470 1),
  ("THA", "Thailand", mkRat 345 1),
  ("TTO", "Trinidad and Tobago", mkRat 155 1),
  ("TUN", "Tunisia", mkRat 35 1),
  ("TUR", "Turkey", mkRat 185 1),
  ("UGA", "Uganda", mkRat 30 1),
  ("UKR", "Ukraine", mkRat 48 1),
  ("ARE", "United Arab Emirates", mkRat 72 1),
  ("GBR", "United Kingdom", mkRat 185 1),
  ("USA", "United States", mkRat 585 1),
  ("URY", "Uruguay", mkRat 115 1),
  ("UZB", "Uzbekistan", mkRat 32 1),
  ("VEN", "Venezuela", mkRat 42 1),
  ("VNM", "Vietnam", mkRat 28 1),
  ("ZMB", "Zambia", mkRat 32 1),
  ("ZWE", "Zimbabwe", mkRat 45 1)]

def _GUN_OWNERSHIP_FALLBACK : List (String × String × ℚ) := [
  ("AFG", "Afghanistan", mkRat 25 2),
  ("ALB", "Albania", mkRat 43 5),
  ("DZA", "Algeria", mkRat 71 10),
  ("AGO", "Angola", mkRat 3 1),
  ("ARG", "Argentina", mkRat 51 5),
  ("ARM", "Armenia", mkRat 22 5),
  ("AUS", "Australia", mkRat 137 10),
  ("AUT", "Austria", mkRat 30 1),
  ("AZE", "Azerbaijan", mkRat 18 5),
  ("BHS", "Bahamas", mkRat 53 10),
  ("BHR", "Bahrain", mkRat 58 5),
  ("BGD", "Bangladesh", mkRat 1 2),
  ("BRB", "Barbados", mkRat 16 5),
  ("BLR", "Belarus", mkRat 73 10),
  ("BEL", "Belgium", mkRat 61 5),
  ("BLZ", "Belize", mkRat 10 1),
  ("BEN", "Benin", mkRat 7 5),
  ("BOL", "Bolivia", mkRat 14 5),
  ("BIH", "Bosnia and Herzegovina", mkRat 156 5),
  ("BWA", "Botswana", mkRat 33 10),
  ("BRA", "Brazil", mkRat 83 10),
  ("BGR", "Bulgaria", mkRat 31 5),
  ("BFA", "Burkina Faso", mkRat 11 10),
  ("BDI", "Burundi", mkRat 8 5),
  ("KHM", "Cambodia", mkRat 9 2),
  ("CMR", "Cameroon", mkRat 11 10),
  ("CAN", "Canada", mkRat 347 10),
  ("CAF", "Central African Republic", mkRat 1 1),
  ("TCD", "Chad", mkRat 13 10),
  ("CHL", "Chile", mkRat 21 2),
  ("CHN", "China", mkRat 18 5),
  ("COL", "Colombia", mkRat 101 10),
  ("COG", "Congo", mkRat 21 10),
  ("COD", "DR Congo", mkRat 7 5),
  ("CRI", "Costa Rica", mkRat 10 1),
  ("CIV", "Cote d\x27Ivoire", mkRat 14 5),
  ("HRV", "Croatia", mkRat 217 10),
  ("CUB", "Cuba", mkRat 9 2),
  ("CYP", "Cyprus", mkRat 182 5),
  ("CZE", "Czech Republic", mkRat 163 10),
  ("DNK", "Denmark", mkRat 99 10),
  ("DOM", "Dominican Republic", mkRat 87 10),
  ("ECU", "Ecuador", mkRat 19 5),
  ("EGY", "Egypt", mkRat 7 2),
  ("SLV", "El Salvador", mkRat 29 5),
  ("ERI", "Eritrea", mkRat 1 2),
  ("EST", "Estonia", mkRat 46 5),
  ("SWZ", "Eswatini", mkRat 7 2),
  ("ETH", "Ethiopia", mkRat 3 5),
  ("FJI", "Fiji", mkRat 1 2),
  ("FIN", "Finland", mkRat 162 5),
  ("FRA", "France", mkRat 98 5),
  ("GAB", "Gabon", mkRat 2 1),
  ("GMB", "Gambia", mkRat 13 10),
  ("GEO", "Georgia", mkRat 15 2),
  ("DEU", "Germany", mkRat 98 5),
  ("GHA", "Ghana", mkRat 7 5),
  ("GRC", "Greece", mkRat 45 2),
  ("GTM", "Guatemala", mkRat 12 1),
  ("GIN", "Guinea", mkRat 11 10),
  ("GNB", "Guinea-Bissau", mkRat 2 1),
  ("GUY", "Guyana", mkRat 4 1),
  ("HTI", "Haiti", mkRat 17 10),
  ("HND", "Honduras", mkRat 141 10),
  ("HUN", "Hungary", mkRat 11 2),
  ("ISL", "Iceland", mkRat 303 10),
  ("IND", "India", mkRat 53 10),
  ("IDN", "Indonesia", mkRat 1 2),
  ("IRN", "Iran", mkRat 73 10),
  ("IRQ", "Iraq", mkRat 98 5),
  ("IRL", "Ireland", mkRat 36 5),
  ("ISR", "Israel", mkRat 73 10),
  ("ITA", "Italy", mkRat 72 5),
  ("JAM", "Jamaica", mkRat 81 10),
  ("JPN", "Japan", mkRat 3 10),
  ("JOR", "Jordan", mkRat 23 2),
  ("KAZ", "Kazakhstan", mkRat 39 10),
  ("KEN", "Kenya", mkRat 17 10),
  ("KOR", "South Korea", mkRat 1 5),
  ("KWT", "Kuwait", mkRat 124 5),
  ("KGZ", "Kyrgyzstan", mkRat 39 10),
  ("LAO", "Laos", mkRat 11 5),
  ("LVA", "Latvia", mkRat 101 10),
  ("LBN", "Lebanon", mkRat 319 10),
  ("LSO", "Lesotho", mkRat 27 10),
  ("LBR", "Liberia", mkRat 11 5),
  ("LBY", "Libya", mkRat 31 2),
  ("LTU", "Lithuania", mkRat 81 10),
  ("LUX", "Luxembourg", mkRat 153 10),
  ("MDG", "Madagascar", mkRat 1 2),
  ("MWI", "Malawi", mkRat 7 10),
  ("MYS", "Malaysia", mkRat 3 2),
  ("MLI", "Mali", mkRat 3 2),
  ("MLT", "Malta", mkRat 119 10),
  ("MRT", "Mauritania", mkRat 7 2),
  ("MUS", "Mauritius", mkRat 7 2),
  ("MEX", "Mexico", mkRat 84 5),
  ("MDA", "Moldova", mkRat 4 1),
  ("MNG", "Mongolia", mkRat 73 10),
  ("MNE", "Montenegro", mkRat 231 10),
  ("MAR", "Morocco", mkRat 51 10),
  ("MOZ", "Mozambique", mkRat 14 5),
  ("MMR", "Myanmar", mkRat 8 5),
  ("NAM", "Namibia", mkRat 28 5),
  ("NPL", "Nepal", mkRat 2 1),
  ("NLD", "Netherlands", mkRat 13 5),
  ("NZL", "New Zealand", mkRat 263 10),
  ("NIC", "Nicaragua", mkRat 67 10),
  ("NER", "Niger", mkRat 7 10),
  ("NGA", "Nigeria", mkRat 3 2),
  ("NOR", "Norway", mkRat 144 5),
  ("OMN", "Oman", mkRat 51 2),
  ("PAK", "Pakistan", mkRat 223 10),
  ("PAN", "Panama", mkRat 77 10),
  ("PNG", "Papua New Guinea", mkRat 39 10),
  ("PRY", "Paraguay", mkRat 17 1),
  ("PER", "Peru", mkRat 5 1),
  ("PHL", "Philippines", mkRat 18 5),
  ("POL", "Poland", mkRat 5 2),
  ("PRT", "Portugal", mkRat 17 2),
  ("QAT", "Qatar", mkRat 96 5),
  ("ROU", "Romania", mkRat 13 5),
  ("RUS", "Russia", mkRat 123 10),
  ("RWA", "Rwanda", mkRat 3 5),
  ("SAU", "Saudi Arabia", mkRat 193 10),
  ("SEN", "Senegal", mkRat 2 1),
  ("SRB", "Serbia", mkRat 391 10),
  ("SLE", "Sierra Leone", mkRat 3 5),
  ("SGP", "Singapore", mkRat 3 10),
  ("SVK", "Slovakia", mkRat 83 10),
  ("SVN", "Slovenia", mkRat 27 2),
  ("SOM", "Somalia", mkRat 91 10),
  ("ZAF", "South Africa", mkRat 97 10),
  ("SSD", "South Sudan", mkRat 3 2),
  ("ESP", "Spain", mkRat 15 2),
  ("LKA", "Sri Lanka", mkRat 3 2),
  ("SDN", "Sudan", mkRat 31 5),
  ("SUR", "Suriname", mkRat 24 5),
  ("SWE", "Sweden", mkRat 231 10),
  ("CHE", "Switzerland", mkRat 138 5),
  ("SYR", "Syria", mkRat 39 10),
  ("TJK", "Tajikistan", mkRat 7 5),
  ("TZA", "Tanzania", mkRat 7 5),
  ("THA", "Thailand", mkRat 151 10),
  ("TLS", "Timor-Leste", mkRat 11 2),
  ("TGO", "Togo", mkRat 8 5),
  ("TTO", "Trinidad and Tobago", mkRat 3 1),
  ("TUN", "Tunisia", mkRat 1 1),
  ("TUR", "Turkey", mkRat 25 2),
  ("TKM", "Turkmenistan", mkRat 19 5),
  ("UGA", "Uganda", mkRat 7 5),
  ("UKR", "Ukraine", mkRat 99 10),
  ("ARE", "United Arab Emirates", mkRat 221 10),
  ("GBR", "United Kingdom", mkRat 23 5),
  ("USA", "United States", mkRat 241 2),
  ("URY", "Uruguay", mkRat 347 10),
  ("UZB", "Uzbekistan", mkRat 17 10),
  ("VEN", "Venezuela", mkRat 37 2),
  ("VNM", "Vietnam", mkRat 8 5),
  ("YEM", "Yemen", mkRat 264 5),
  ("ZMB", "Zambia", mkRat 8 5),
  ("ZWE", "Zimbabwe", mkRat 14 5)]

def _GUN_CONTROL_STRICTNESS_FALLBACK : List (String × String × Int) := [
  ("AFG", "Afghanistan", 1),
  ("ALB", "Albania", 3),
  ("DZA", "Algeria", 4),
  ("AGO", "Angola", 3),
  ("ARG", "Argentina", 3),
  ("ARM", "Armenia", 3),
  ("AUS", "Australia", 4),
  ("AUT", "Austria", 3),
  ("AZE", "Azerbaijan", 4),
  ("BHS", "Bahamas", 3),
  ("BHR", "Bahrain", 4),
  ("BGD", "Bangladesh", 4),
  ("BRB", "Barbados", 3),
  ("BLR", "Belarus", 4),
  ("BEL", "Belgium", 3),
  ("BLZ", "Belize", 2),
  ("BEN", "Benin", 3),
  ("BOL", "Bolivia", 3),
  ("BIH", "Bosnia and Herzegovina", 3),
  ("BWA", "Botswana", 3),
  ("BRA", "Brazil", 3),
  ("BGR", "Bulgaria", 3),
  ("BFA", "Burkina Faso", 3),
  ("BDI", "Burundi", 4),
  ("KHM", "Cambodia", 4),
  ("CMR", "Cameroon", 3),
  ("CAN", "Canada", 3),
  ("CAF", "Central African Republic", 2),
  ("TCD", "Chad", 3),
  ("CHL", "Chile", 3),
  ("CHN", "China", 5),
  ("COL", "Colombia", 3),
  ("COG", "Congo", 3),
  ("COD", "DR Congo", 3),
  ("CRI", "Costa Rica", 3),
  ("CIV", "Cote d\x27Ivoire", 3),
  ("HRV", "Croatia", 3),
  ("CUB", "Cuba", 4),
  ("CYP", "Cyprus", 3),
  ("CZE", "Czech Republic", 2),
  ("DNK", "Denmark", 4),
  ("DOM", "Dominican Republic", 3),
  ("ECU", "Ecuador", 3),
  ("EGY", "Egypt", 4),
  ("SLV", "El Salvador", 3),
  ("ERI", "Eritrea", 5),
  ("EST", "Estonia", 3),
  ("SWZ", "Eswatini", 3),
  ("ETH", "Ethiopia", 4),
  ("FJI", "Fiji", 4),
  ("FIN", "Finland", 3),
  ("FRA", "France", 3),
  ("GAB", "Gabon", 3),
  ("GMB", "Gambia", 3),
  ("GEO", "Georgia", 3),
  ("DEU", "Germany", 3),
  ("GHA", "Ghana", 3),
  ("GRC", "Greece", 3),
  ("GTM", "Guatemala", 2),
  ("GIN", "Guinea", 3),
  ("GNB", "Guinea-Bissau", 3),
  ("GUY", "Guyana", 3),
  ("HTI", "Haiti", 2),
  ("HND", "Honduras", 2),
  ("HUN", "Hungary", 4),
  ("ISL", "Iceland", 3),
  ("IND", "India", 3),
  ("IDN", "Indonesia", 4),
  ("IRN", "Iran", 4),
  ("IRQ", "Iraq", 2),
  ("IRL", "Ireland", 4),
  ("ISR", "Israel", 3),
  ("ITA", "Italy", 3),
  ("JAM", "Jamaica", 4),
  ("JPN", "Japan", 5),
  ("JOR", "Jordan", 3),
  ("KAZ", "Kazakhstan", 3),
  ("KEN", "Kenya", 4),
  ("KOR", "South Korea", 4),
  ("KWT", "Kuwait", 3),
  ("KGZ", "Kyrgyzstan", 3),
  ("LAO", "Laos", 4),
  ("LVA", "Latvia", 3),
  ("LBN", "Lebanon", 2),
  ("LSO", "Lesotho", 3),
  ("LBR", "Liberia", 3),
  ("LBY", "Libya", 2),
  ("LTU", "Lithuania", 3),
  ("LUX", "Luxembourg", 4),
  ("MDG", "Madagascar", 3),
  ("MWI", "Malawi", 3),
  ("MYS", "Malaysia", 4),
  ("MLI", "Mali", 3),
  ("MLT", "Malta", 4),
  ("MRT", "Mauritania", 3),
  ("MUS", "Mauritius", 4),
  ("MEX", "Mexico", 3),
  ("MDA", "Moldova", 4),
  ("MNG", "Mongolia", 3),
  ("MNE", "Montenegro", 3),
  ("MAR", "Morocco", 4),
  ("MOZ", "Mozambique", 3),
  ("MMR", "Myanmar", 5),
  ("NAM", "Namibia", 3),
  ("NPL", "Nepal", 4),
  ("NLD", "Netherlands", 4),
  ("NZL", "New Zealand", 4),
  ("NIC", "Nicaragua", 3),
  ("NER", "Niger", 3),
  ("NGA", "Nigeria", 3),
  ("NOR", "Norway", 3),
  ("OMN", "Oman", 4),
  ("PAK", "Pakistan", 2),
  ("PAN", "Panama", 3),
  ("PNG", "Papua New Guinea", 3),
  ("PRY", "Paraguay", 2),
  ("PER", "Peru", 3),
  ("PHL", "Philippines", 3),
  ("POL", "Poland", 4),
  ("PRT", "Portugal", 3),
  ("QAT", "Qatar", 4),
  ("ROU", "Romania", 4),
  ("RUS", "Russia", 4),
  ("RWA", "Rwanda", 5),
  ("SAU", "Saudi Arabia", 3),
  ("SEN", "Senegal", 3),
  ("SRB", "Serbia", 2),
  ("SLE", "Sierra Leone", 3),
  ("SGP", "Singapore", 5),
  ("SVK", "Slovakia", 3),
  ("SVN", "Slovenia", 3),
  ("SOM", "Somalia", 1),
  ("ZAF", "South Africa", 3),
  ("SSD", "South Sudan", 2),
  ("ESP", "Spain", 3),
  ("LKA", "Sri Lanka", 4),
  ("SDN", "Sudan", 2),
  ("SUR", "Suriname", 2),
  ("SWE", "Sweden", 3),
  ("CHE", "Switzerland", 2),
  ("SYR", "Syria", 3),
  ("TJK", "Tajikistan", 4),
  ("TZA", "Tanzania", 4),
  ("THA", "Thailand", 3),
  ("TLS", "Timor-Leste", 4),
  ("TGO", "Togo", 3),
  ("TTO", "Trinidad and Tobago", 3),
  ("TUN", "Tunisia", 4),
  ("TUR", "Turkey", 3),
  ("TKM", "Turkmenistan", 5),
  ("UGA", "Uganda", 3),
  ("UKR", "Ukraine", 3),
  ("ARE", "United Arab Emirates", 4),
  ("GBR", "United Kingdom", 4),
  ("USA", "United States", 1),
  ("URY", "Uruguay", 3),
  ("UZB", "Uzbekistan", 4),
  ("VEN", "Venezuela", 3),
  ("VNM", "Vietnam", 5),
  ("YEM", "Yemen", 1),
  ("ZMB", "Zambia", 3),
  ("ZWE", "Zimbabwe", 3)]

def _COUNTRY_REGIONS : List (String × String) := [
  ("USA", "North America"),
  ("CAN", "North America"),
  ("MEX", "North America"),
  ("GTM", "Central America & Caribbean"),
  ("BLZ", "Central America & Caribbean"),
  ("HND", "Central America & Caribbean"),
  ("SLV", "Central America & Caribbean"),
  ("NIC", "Central America & Caribbean"),
  ("CRI", "Central America & Caribbean"),
  ("PAN", "Central America & Caribbean"),
  ("CUB", "Central America & Caribbean"),
  ("JAM", "Central America & Caribbean"),
  ("HTI", "Central America & Caribbean"),
  ("DOM", "Central America & Caribbean"),
  ("TTO", "Central America & Caribbean"),
  ("BHS", "Central America & Caribbean"),
  ("BRB", "Central America & Caribbean"),
  ("BRA", "South America"),
  ("ARG", "South America"),
  ("COL", "South America"),
  ("VEN", "South America"),
  ("PER", "South America"),
  ("CHL", "South America"),
  ("ECU", "South America"),
  ("BOL", "South America"),
  ("PRY", "South America"),
  ("URY", "South America"),
  ("GUY", "South America"),
  ("SUR", "South America"),
  ("GBR", "Western Europe"),
  ("FRA", "Western Europe"),
  ("DEU", "Western Europe"),
  ("ESP", "Western Europe"),
  ("ITA", "Western Europe"),
  ("PRT", "Western Europe"),
  ("NLD", "Western Europe"),
  ("BEL", "Western Europe"),
  ("CHE", "Western Europe"),
  ("AUT", "Western Europe"),
  ("IRL", "Western Europe"),
  ("LUX", "Western Europe"),
  ("DNK", "Western Europe"),
  ("NOR", "Western Europe"),
  ("SWE", "Western Europe"),
  ("FIN", "Western Europe"),
  ("ISL", "Western Europe"),
  ("MLT", "Western Europe"),
  ("CYP", "Western Europe"),
  ("GRC", "Western Europe"),
  ("RUS", "Eastern Europe"),
  ("UKR", "Eastern Europe"),
  ("POL", "Eastern Europe"),
  ("ROU", "Eastern Europe"),
  ("CZE", "Eastern Europe"),
  ("HUN", "Eastern Europe"),
  ("BGR", "Eastern Europe"),
  ("SRB", "Eastern Europe"),
  ("HRV", "Eastern Europe"),
  ("SVK", "Eastern Europe"),
  ("SVN", "Eastern Europe"),
  ("BIH", "Eastern Europe"),
  ("MNE", "Eastern Europe"),
  ("ALB", "Eastern Europe"),
  ("MDA", "Eastern Europe"),
  ("BLR", "Eastern Europe"),
  ("LTU", "Eastern Europe"),
  ("LVA", "Eastern Europe"),
  ("EST", "Eastern Europe"),
  ("GEO", "Eastern Europe"),
  ("ARM", "Eastern Europe"),
  ("AZE", "Eastern Europe"),
  ("SAU", "Middle East & N. Africa"),
  ("ARE", "Middle East & N. Africa"),
  ("ISR", "Middle East & N. Africa"),
  ("TUR", "Middle East & N. Africa"),
  ("IRN", "Middle East & N. Africa"),
  ("IRQ", "Middle East & N. Africa"),
  ("JOR", "Middle East & N. Africa"),
  ("LBN", "Middle East & N. Africa"),
  ("KWT", "Middle East & N. Africa"),
  ("QAT", "Middle East & N. Africa"),
  ("BHR", "Middle East & N. Africa"),
  ("OMN", "Middle East & N. Africa"),
  ("SYR", "Middle East & N. Africa"),
  ("YEM", "Middle East & N. Africa"),
  ("EGY", "Middle East & N. Africa"),
  ("LBY", "Middle East & N. Africa"),
  ("TUN", "Middle East & N. Africa"),
  ("DZA", "Middle East & N. Africa"),
  ("MAR", "Middle East & N. Africa"),
  ("NGA", "Sub-Saharan Africa"),
  ("ZAF", "Sub-Saharan Africa"),
  ("KEN", "Sub-Saharan Africa"),
  ("ETH", "Sub-Saharan Africa"),
  ("GHA", "Sub-Saharan Africa"),
  ("TZA", "Sub-Saharan Africa"),
  ("UGA", "Sub-Saharan Africa"),
  ("CMR", "Sub-Saharan Africa"),
  ("CIV", "Sub-Saharan Africa"),
  ("SEN", "Sub-Saharan Africa"),
  ("MLI", "Sub-Saharan Africa"),
  ("BFA", "Sub-Saharan Africa"),
  ("NER", "Sub-Saharan Africa"),
  ("TCD", "Sub-Saharan Africa"),
  ("SDN", "Sub-Saharan Africa"),
  ("SSD", "Sub-Saharan Africa"),
  ("SOM", "Sub-Saharan Africa"),
  ("COG", "Sub-Saharan Africa"),
  ("COD", "Sub-Saharan Africa"),
  ("MOZ", "Sub-Saharan Africa"),
  ("MDG", "Sub-Saharan Africa"),
  ("MWI", "Sub-Saharan Africa"),
  ("ZMB", "Sub-Saharan Africa"),
  ("ZWE", "Sub-Saharan Africa"),
  ("AGO", "Sub-Saharan Africa"),
  ("NAM", "Sub-Saharan Africa"),
  ("BWA", "Sub-Saharan Africa"),
  ("LSO", "Sub-Saharan Africa"),
  ("SWZ", "Sub-Saharan Africa"),
  ("RWA", "Sub-Saharan Africa"),
  ("BDI", "Sub-Saharan Africa"),
  ("BEN", "Sub-Saharan Africa"),
  ("TGO", "Sub-Saharan Africa"),
  ("SLE", "Sub-Saharan Africa"),
  ("LBR", "Sub-Saharan Africa"),
  ("GIN", "Sub-Saharan Africa"),
  ("GNB", "Sub-Saharan Africa"),
  ("GMB", "Sub-Saharan Africa"),
  ("GAB", "Sub-Saharan Africa"),
  ("GNQ", "Sub-Saharan Africa"),
  ("ERI", "Sub-Saharan Africa"),
  ("DJI", "Sub-Saharan Africa"),
  ("CPV", "Sub-Saharan Africa"),
  ("MUS", "Sub-Saharan Africa"),
  ("MRT", "Sub-Saharan Africa"),
  ("CAF", "Sub-Saharan Africa"),
  ("AFG", "Sub-Saharan Africa"),
  ("IND", "South & Central Asia"),
  ("PAK", "South & Central Asia"),
  ("BGD", "South & Central Asia"),
  ("LKA", "South & Central Asia"),
  ("NPL", "South & Central Asia"),
  ("BTN", "South & Central Asia"),
  ("KAZ", "South & Central Asia"),
  ("UZB", "South & Central Asia"),
  ("TKM", "South & Central Asia"),
  ("TJK", "South & Central Asia"),
  ("KGZ", "South & Central Asia"),
  ("CHN", "East & SE Asia"),
  ("JPN", "East & SE Asia"),
  ("KOR", "East & SE Asia"),
  ("TWN", "East & SE Asia"),
  ("MNG", "East & SE Asia"),
  ("IDN", "East & SE Asia"),
  ("PHL", "East & SE Asia"),
  ("VNM", "East & SE Asia"),
  ("THA", "East & SE Asia"),
  ("MYS", "East & SE Asia"),
  ("SGP", "East & SE Asia"),
  ("MMR", "East & SE Asia"),
  ("KHM", "East & SE Asia"),
  ("LAO", "East & SE Asia"),
  ("BRN", "East & SE Asia"),
  ("TLS", "East & SE Asia"),
  ("AUS", "Oceania"),
  ("NZL", "Oceania"),
  ("FJI", "Oceania"),
  ("PNG", "Oceania")]

/-! ### Fallback-aware wrappers -/

/-- A row of the DataFrame returned by `fetch_population`
(columns `country_code`, `country_name`, `population`). -/
structure PopRow where
  country_code : String
  country_name : String
  population : ℚ
deriving DecidableEq, Repr

/-- The rows built from `_POPULATION_FALLBACK.items()`. -/
def populationFallbackRows : List PopRow :=
  _POPULATION_FALLBACK.map fun en => ⟨en.1, en.2.1, (en.2.2 : ℚ)⟩

/-- `fetch_population`: call the indicator fetcher; if it produced at least
100 rows, rename `value` to `population` and return it, otherwise return the
embedded fallback rows. -/
def fetch_population (o : FetchOutcome) : List PopRow :=
  let df := fetch_world_bank_indicator o
  if 100 ≤ df.length then
    df.map fun r => ⟨r.country_code, r.country_name, r.value⟩
  else
    populationFallbackRows

/-- A row of the per-year concatenation built inside `fetch_gini`
(columns `country_code`, `country_name`, `value`, `year`). -/
structure GiniRow where
  country_code : String
  country_name : String
  value : ℚ
  year : Int
deriving DecidableEq, Repr

/-- A row of the DataFrame returned by `fetch_gini`
(columns `country_code`, `country_name`, `gini`). -/
structure GiniOut where
  country_code : String
  country_name : String
  gini : ℚ
deriving DecidableEq, Repr

/-- The rows built from `_GINI_FALLBACK.items()`. -/
def giniFallbackRows : List GiniOut :=
  _GINI_FALLBACK.map fun en => ⟨en.1, en.2.1, en.2.2⟩

/-- `range(int(end), int(start) - 1, -1)`: the candidate years from the most
recent (`e`) down to the oldest (`s`); empty when `e < s`. -/
def descYears (s e : Int) : List Int :=
  (List.range (e - s + 1).toNat).map fun (i : Nat) => e - (i : Int)

/-- The concatenation (`pd.concat`) of the non-empty per-year fetch results,
each tagged with its year (`df["year"] = year`).  Skipping the empty per-year
frames, as the source's `if len(df) > 0` does, leaves the concatenation
unchanged, so the empties are simply concatenated here as well. -/
def giniCombined (fetch : Int → List WBRow) (s e : Int) : List GiniRow :=
  (descYears s e).flatMap fun y =>
    (fetch y).map fun r => ⟨r.country_code, r.country_name, r.value, y⟩

/-- Insertion step of the model of `sort_values("year", ascending=False)`:
place `r` before the first row whose year is at most `r`'s. -/
def insertYearDesc (r : GiniRow) : List GiniRow → List GiniRow
  | [] => [r]
  | q :: t => if q.year ≤ r.year then r :: q :: t else q :: insertYearDesc r t

/-- `sort_values("year", ascending=False)` modelled as a stable insertion
sort by descending year.  (The input it is applied to in `fetch_gini` is
already sorted by descending year, so the sort is the identity there; the
properties proved below do not depend on the tie-breaking order.) -/
def sortYearDesc : List GiniRow → List GiniRow
  | [] => []
  | r :: t => insertYearDesc r (sortYearDesc t)

/-- `drop_duplicates(subset=["country_code"], keep="first")`: keep the first
row of each country code, in order of first occurrence. -/
def dedupByCode : List GiniRow → List GiniRow
  | [] => []
  | r :: t => r :: dedupByCode (t.filter fun q => q.country_code ≠ r.country_code)
termination_by l => l.length
decreasing_by
  simp only [List.length_cons]
  exact Nat.lt_succ_of_le (List.length_filter_le _ _)

/-- `fetch_gini`: concatenate the per-year results; if nothing was fetched
(`if all_rows:` fails) fall back; otherwise sort by year descending, keep the
first row per country code, and return those rows if there are at least 50 of
them, falling back otherwise. -/
def fetch_gini (fetch : Int → List WBRow) (s e : Int) : List GiniOut :=
  let combined := giniCombined fetch s e
  if combined.isEmpty then giniFallbackRows
  else
    let dd := dedupByCode (sortYearDesc combined)
    if 50 ≤ dd.length then
      dd.map fun r => ⟨r.country_code, r.country_name, r.value⟩
    else
      giniFallbackRows

/-! ### Static-table accessors -/

/-- A row of `get_gun_homicide_rates`
(columns `country_code`, `country_name`, `gun_homicide_rate`). -/
structure HomicideRow where
  country_code : String
  country_name : String
  gun_homicide_rate : ℚ
deriving DecidableEq, Repr

/-- `get_gun_homicide_rates`: one row per entry of
`_GUN_HOMICIDE_FALLBACK`. -/
def get_gun_homicide_rates : List HomicideRow :=
  _GUN_HOMICIDE_FALLBACK.map fun en => ⟨en.1, en.2.1, en.2.2⟩

/-- A row of `get_drug_offense_rates`
(columns `country_code`, `country_name`, `drug_offense_rate`). -/
structure DrugRow where
  country_code : String
  country_name : String
  drug_offense_rate : ℚ
deriving DecidableEq, Repr

/-- `get_drug_offense_rates`: one row per entry of
`_DRUG_OFFENSE_FALLBACK`. -/
def get_drug_offense_rates : List DrugRow :=
  _DRUG_OFFENSE_FALLBACK.map fun en => ⟨en.1, en.2.1, en.2.2⟩

/-- A row of `get_gun_ownership_rates`
(columns `country_code`, `country_name`, `guns_per_100`). -/
structure OwnershipRow where
  country_code : String
  country_name : String
  guns_per_100 : ℚ
deriving DecidableEq, Repr

/-- `get_gun_ownership_rates`: one row per entry of
`_GUN_OWNERSHIP_FALLBACK`. -/
def get_gun_ownership_rates : List OwnershipRow :=
  _GUN_OWNERSHIP_FALLBACK.map fun en => ⟨en.1, en.2.1, en.2.2⟩

/-- A row of `get_gun_control_strictness`
(columns `country_code`, `country_name`, `gun_control_strictness`). -/
structure StrictnessRow where
  country_code : String
  country_name : String
  gun_control_strictness : Int
deriving DecidableEq, Repr

/-- `get_gun_control_strictness`: one row per entry of
`_GUN_CONTROL_STRICTNESS_FALLBACK`. -/
def get_gun_control_strictness : List StrictnessRow :=
  _GUN_CONTROL_STRICTNESS_FALLBACK.map fun en => ⟨en.1, en.2.1, en.2.2⟩

/-- A row of `get_country_regions` (columns `country_code`, `region`). -/
structure RegionRow where
  country_code : String
  region : String
deriving DecidableEq, Repr

/-- `get_country_regions`: one row per entry of `_COUNTRY_REGIONS`. -/
def get_country_regions : List RegionRow :=
  _COUNTRY_REGIONS.map fun en => ⟨en.1, en.2⟩

/-! ## generate_html.py -/

/-- The fixed ordered list `NOTEBOOKS`. -/
def NOTEBOOKS : List String :=
  ["01_data_collection.ipynb",
   "02_gun_homicide_map.ipynb",
   "03_gini_correlation.ipynb",
   "04_drug_correlation.ipynb",
   "05_population_correlation.ipynb",
   "06_gun_ownership_correlation.ipynb",
   "07_gun_control_correlation.ipynb",
   "08_us_data_collection.ipynb",
   "09_us_gun_homicide_map.ipynb",
   "10_us_gini_correlation.ipynb",
   "11_us_drug_correlation.ipynb",
   "12_us_population_correlation.ipynb",
   "13_us_poverty_correlation.ipynb",
   "14_us_income_correlation.ipynb",
   "15_us_gun_ownership_correlation.ipynb",
   "16_us_gun_control_correlation.ipynb",
   "17_us_mass_shooting_data.ipynb",
   "18_us_mass_shooting_map.ipynb",
   "19_us_mass_shooting_gini.ipynb",
   "20_us_mass_shooting_drug.ipynb",
   "21_us_mass_shooting_population.ipynb",
   "22_us_mass_shooting_poverty.ipynb",
   "23_us_mass_shooting_income.ipynb",
   "24_us_mass_shooting_gun_ownership.ipynb",
   "25_us_mass_shooting_gun_control.ipynb",
   "26_us_mental_illness_homicide.ipynb",
   "27_us_mass_shooting_mental_illness.ipynb"]

/-- The plotly payload of a `display_data`/`execute_result` output, as it ends
up in the emitted fragment.  `json.dumps` of the parsed chart JSON (after the
fixed, deterministic `setdefault` margin defaults) is a pure function of the
notebook content, so the payload is modelled by the two serialized strings
`fig_data` and `fig_layout`. -/
structure PlotlyPayload where
  figData : String
  figLayout : String
deriving DecidableEq, Repr

/-- The `data` dict of a `display_data`/`execute_result` output, restricted to
the three mime types the source inspects (in source order of precedence:
plotly, then `text/html`, then `image/png`).  A `text/html` value is a list of
strings that is joined; an `image/png` value that is a plain string rather
than a list behaves exactly like the singleton list, so both are modelled as
lists. -/
structure MimeData where
  plotly : Option PlotlyPayload
  textHtml : Option (List String)
  imagePng : Option (List String)
deriving DecidableEq, Repr

/-- One element of a code cell's `outputs`, dispatched on `output_type`:
`display_data` and `execute_result` carry a `data` dict, `stream` carries a
`text` list, and anything else is ignored by the source. -/
inductive CellOutput where
  | displayData (d : MimeData)
  | executeResult (d : MimeData)
  | stream (text : List String)
  | otherOutput
deriving DecidableEq, Repr

/-- One notebook cell, dispatched on `cell_type`: markdown cells carry a
`source` list of lines, code cells carry `outputs`, and any other cell type is
skipped by the source (`continue`). -/
inductive Cell where
  | markdown (source : List String)
  | code (outputs : List CellOutput)
  | otherCell
deriving DecidableEq, Repr

/-- A notebook document: the `cells` array. -/
structure Notebook where
  cells : List Cell
deriving DecidableEq, Repr

/-- Python's `needle in haystack` substring test (used for `"<table" in
html_content`): `str.split` returns more than one piece iff the needle
occurs. -/
def containsSub (needle hay : String) : Bool :=
  (hay.splitOn needle).length ≠ 1

/-- The per-line markdown-to-HTML translation of `extract_outputs`: line
prefix matching for headings, bold paragraphs, list items, and plain
paragraphs; blank lines produce nothing. -/
def markdownLineHtml (line : String) : Option String :=
  if line.startsWith "### " then some ("<h4>" ++ line.drop 4 ++ "</h4>")
  else if line.startsWith "## " then some ("<h3>" ++ line.drop 3 ++ "</h3>")
  else if line.startsWith "# " then some ("<h3>" ++ line.drop 2 ++ "</h3>")
  else if line.startsWith "**" && line.endsWith "**" then
    some ("<p><strong>" ++ ((line.drop 2).dropRight 2) ++ "</strong></p>")
  else if line.startsWith "- " then some ("<li>" ++ line.drop 2 ++ "</li>")
  else if line.trim ≠ "" then some ("<p>" ++ line ++ "</p>")
  else none

/-- The HTML part appended for one markdown cell: join the `source` lines,
split on newlines, translate each line, and re-join with newlines.  (A
markdown cell always appends a part, even when every line is blank.) -/
def markdownCellHtml (source : List String) : String :=
  String.intercalate "\n"
    (((String.join source).splitOn "\n").filterMap markdownLineHtml)

/-- The fragment emitted for a plotly chart output, with the generated
element identifier spliced in. -/
def plotlyFragment (divId : String) (p : PlotlyPayload) : String :=
  "<div id=\"" ++ divId ++ "\" class=\"plotly-graph-div\" style=\"width:100%;\"></div>\n"
    ++ "<script type=\"text/javascript\">\n"
    ++ "Plotly.newPlot(\"" ++ divId ++ "\", " ++ p.figData ++ ", " ++ p.figLayout
    ++ ", \x7b\"responsive\": true, \"displayModeBar\": false\x7d);\n</script>"

/-- The parts appended for one `display_data`/`execute_result` data dict.
A plotly chart consumes the next identifier from the stream (modelling
`uuid.uuid4().hex[:12]`); the other branches consume nothing. -/
def renderData (d : MimeData) (ids : List String) : List String × List String :=
  match d.plotly with
  | some p =>
    ([plotlyFragment ("plotly-" ++ (ids.head?.getD "")) p], ids.tail)
  | none =>
    match d.textHtml with
    | some pieces =>
      let htmlContent := String.join pieces
      if containsSub "<table" htmlContent then
        (["<div class=\"table-wrapper\">" ++ htmlContent ++ "</div>"], ids)
      else
        (["<div class=\"output-html\">" ++ htmlContent ++ "</div>"], ids)
    | none =>
      match d.imagePng with
      | some img =>
        (["<div class=\"output-image\"><img src=\"data:image/png;base64,"
            ++ (String.join img).trim ++ "\"></div>"], ids)
      | none => ([], ids)

/-- The parts appended for one code-cell output. -/
def renderOutput (o : CellOutput) (ids : List String) : List String × List String :=
  match o with
  | .displayData d => renderData d ids
  | .executeResult d => renderData d ids
  | .stream text =>
    let t := String.join text
    if t.trim ≠ "" then (["<pre class=\"output-text\">" ++ t ++ "</pre>"], ids)
    else ([], ids)
  | .otherOutput => ([], ids)

/-- Process a code cell's outputs in order, threading the identifier
stream. -/
def processOutputs : List CellOutput → List String → List String × List String
  | [], ids => ([], ids)
  | o :: rest, ids =>
    let r := renderOutput o ids
    let t := processOutputs rest r.2
    (r.1 ++ t.1, t.2)

/-- The parts appended for one cell. -/
def processCell (c : Cell) (ids : List String) : List String × List String :=
  match c with
  | .markdown source => ([markdownCellHtml source], ids)
  | .code outputs => processOutputs outputs ids
  | .otherCell => ([], ids)

/-- Process all cells in order, threading the identifier stream. -/
def processCells : List Cell → List String → List String × List String
  | [], ids => ([], ids)
  | c :: rest, ids =>
    let r := processCell c ids
    let t := processCells rest r.2
    (r.1 ++ t.1, t.2)

/-- `extract_outputs` together with the unconsumed part of the identifier
stream: `"\n".join(parts)`. -/
def extractOutputsAux (nb : Notebook) (ids : List String) : String × List String :=
  let r := processCells nb.cells ids
  (String.intercalate "\n" r.1, r.2)

/-- `extract_outputs`: the HTML fragment extracted from one notebook, given
the stream of generated chart identifiers. -/
def extract_outputs (nb : Notebook) (ids : List String) : String :=
  (extractOutputsAux nb ids).1

/-- Python's `str.title()`: uppercase a letter that follows a non-letter,
lowercase a letter that follows a letter. -/
def pyTitle (s : String) : String :=
  String.mk (s.data.foldl
    (fun acc c =>
      (acc.1 ++ [if acc.2 then c.toLower else c.toUpper], c.isAlpha))
    (([] : List Char), false)).1

/-- The section title derived from a notebook file name: drop `.ipynb`,
replace underscores with spaces, title-case, and strip the leading digits and
spaces. -/
def titleOf (name : String) : String :=
  (pyTitle ((name.replace ".ipynb" "").replace "_" " ")).dropWhile
    fun c => c.isDigit || c = ' '

/-- The loop of `main` over `NOTEBOOKS`, threading the chart-identifier
stream: a missing file (`fs name = none`) is skipped; an existing file is
extracted, and contributes a `(title, fragment)` section iff its fragment is
non-empty (`if html_fragment:`). -/
def mainSectionsAux (fs : String → Option Notebook) :
    List String → List String → List (String × String) × List String
  | [], ids => ([], ids)
  | name :: rest, ids =>
    match fs name with
    | none => mainSectionsAux fs rest ids
    | some nb =>
      let r := extractOutputsAux nb ids
      let t := mainSectionsAux fs rest r.2
      if r.1 = "" then t else ((titleOf name, r.1) :: t.1, t.2)

/-- The section list assembled by `main`, for a given filesystem (mapping a
notebook file name to its parsed content when the file exists) and
chart-identifier stream. -/
def mainSections (fs : String → Option Notebook) (ids : List String) :
    List (String × String) :=
  (mainSectionsAux fs NOTEBOOKS ids).1

/-- One navigation anchor: `<a href="#section-i">title</a>`. -/
def navItem (i : Nat) (title : String) : String :=
  "<a href=\"#section-" ++ toString i ++ "\">" ++ title ++ "</a>"

/-- One content section with its slug anchor, title and fragment. -/
def contentSection (i : Nat) (title fragment : String) : String :=
  "<section id=\"section-" ++ toString i ++ "\">\n"
    ++ "<h2 class=\"section-title\">" ++ title ++ "</h2>\n"
    ++ "<div class=\"notebook-content\">" ++ fragment ++ "</div>\n"
    ++ "</section>\n<hr>\n"

/-- `"".join(nav_items)`. -/
def navHtml (sections : List (String × String)) : String :=
  String.join (sections.enum.map fun p => navItem p.1 p.2.1)

/-- `"".join(content_sections)`. -/
def contentHtml (sections : List (String × String)) : String :=
  String.join (sections.enum.map fun p => contentSection p.1 p.2.1 p.2.2)

/-- The fixed HTML shell up to the navigation hole (document head, embedded stylesheet, page header, opening of the `nav` block), transcribed from the `f"""..."""` template (`\x7b`/`\x7d` are the literal braces written `{{`/`}}` in the f-string). -/
def htmlTemplatePre : String :=
  "<!DOCTYPE html>\n<html lang=\"en\">\n<head>\n<meta charset=\"utf-8\">\n<meta name=\"viewport\" content=\"width=device-width, initial-scale=1\">\n<link rel=\"icon\" href=\"data:image/svg+xml,<svg xmlns=\x27http://www.w3.org/2000/svg\x27 viewBox=\x270 0 100 100\x27><text y=\x27.9em\x27 font-size=\x2790\x27>\u00f0\u0178\u201d\u00ab</text></svg>\">\n<title>Gun Violence Analysis \u00e2\u20ac\u201d Full Report</title>\n<script src=\"https://cdn.plot.ly/plotly-2.35.2.min.js\"></script>\n<style>\n    * \x7b\n        box-sizing: border-box;\n    \x7d\n    body \x7b\n        font-family: -apple-system, BlinkMacSystemFont, \"Segoe UI\", Helvetica, Arial, sans-serif;\n        max-width: 1200px;\n        margin: 0 auto;\n        padding: 20px;\n        background: #fafafa;\n        color: #333;\n    \x7d\n    h1 \x7b\n        text-align: center;\n        color: #2c3e50;\n        border-bottom: 3px solid #e74c3c;\n        padding-bottom: 15px;\n        font-size: clamp(1.4rem, 4vw, 2rem);\n    \x7d\n    nav \x7b\n        display: flex;\n        flex-wrap: wrap;\n        justify-content: center;\n        gap: 8px 16px;\n        margin: 20px 0 30px;\n        padding: 15px;\n        background: #fff;\n        border-radius: 8px;\n        box-shadow: 0 1px 3px rgba(0,0,0,0.1);\n    \x7d\n    nav a \x7b\n        color: #e74c3c;\n        text-decoration: none;\n        font-weight: 600;\n        font-size: 14px;\n        white-space: nowrap;\n    \x7d\n    nav a:hover \x7b\n        text-decoration: underline;\n    \x7d\n    .section-title \x7b\n        color: #2c3e50;\n        border-left: 4px solid #e74c3c;\n        padding-left: 12px;\n        font-size: clamp(1.1rem, 3vw, 1.5rem);\n    \x7d\n    section \x7b\n        background: #fff;\n        padding: 25px;\n        margin: 20px 0;\n        border-radius: 8px;\n        box-shadow: 0 1px 3px rgba(0,0,0,0.1);\n        overflow: hidden;\n    \x7d\n    .notebook-content img \x7b\n        max-width: 100%;\n        height: auto;\n        display: block;\n        margin: 0 auto;\n    \x7d\n    .output-text \x7b\n        background: #f5f5f5;\n        padding: 10px;\n        border-radius: 4px;\n        overflow-x: auto;\n        font-size: 13px;\n        white-space: pre-wrap;\n        word-break: break-word;\n    \x7d\n    .table-wrapper \x7b\n        overflow-x: auto;\n        -webkit-overflow-scrolling: touch;\n        margin: 10px 0;\n    \x7d\n    .notebook-content table \x7b\n        border-collapse: collapse;\n        font-size: 13px;\n        min-width: 400px;\n    \x7d\n    .notebook-content table th,\n    .notebook-content table td \x7b\n        border: 1px solid #ddd;\n        padding: 6px 10px;\n        text-align: right;\n        white-space: nowrap;\n    \x7d\n    .notebook-content table th \x7b\n        background: #f0f0f0;\n        position: sticky;\n        top: 0;\n        z-index: 1;\n    \x7d\n    .output-image \x7b\n        text-align: center;\n        margin: 15px 0;\n        overflow-x: auto;\n    \x7d\n    .output-html \x7b\n        margin: 15px 0;\n        overflow-x: auto;\n    \x7d\n    hr \x7b\n        border: none;\n        border-top: 1px solid #eee;\n        margin: 30px 0;\n    \x7d\n    .plotly-graph-div \x7b\n        margin: 15px 0;\n        min-height: 350px;\n    \x7d\n    footer \x7b\n        text-align: center;\n        color: #999;\n        font-size: 13px;\n        margin-top: 40px;\n        padding: 20px;\n    \x7d\n    @media (max-width: 768px) \x7b\n        body \x7b\n            padding: 10px;\n        \x7d\n        section \x7b\n            padding: 12px;\n            margin: 10px 0;\n            border-radius: 6px;\n        \x7d\n        nav \x7b\n            padding: 10px;\n            gap: 6px 12px;\n        \x7d\n        nav a \x7b\n            font-size: 13px;\n        \x7d\n        .plotly-graph-div \x7b\n            min-height: 300px;\n        \x7d\n        .notebook-content table \x7b\n            font-size: 11px;\n        \x7d\n        .notebook-content table th,\n        .notebook-content table td \x7b\n            padding: 4px 6px;\n        \x7d\n        .output-text \x7b\n            font-size: 11px;\n            padding: 8px;\n        \x7d\n    \x7d\n</style>\n</head>\n<body>\n<h1>Gun Violence Analysis \u00e2\u20ac\u201d Country-Level &amp; US County-Level Report</h1>\n<nav>\n    "

/-- The fixed HTML shell between the navigation hole and the content hole (closing of the `nav` block). -/
def htmlTemplateMid : String :=
  "\n</nav>\n\n"

/-- The fixed HTML shell after the content hole (the footer and closing tags). -/
def htmlTemplatePost : String :=
  "\n\n<footer>\n    Generated from Jupyter notebooks. Data sources: World Bank, UNODC, Census ACS, CDC WONDER, FBI UCR, RAND, Giffords Law Center, Gun Violence Archive, SAMHSA NSDUH.\n</footer>\n</body>\n</html>"

/-- The assembled document: the template with the joined navigation anchors
and the joined content sections spliced into its two holes. -/
def htmlPage (nav content : String) : String :=
  htmlTemplatePre ++ nav ++ htmlTemplateMid ++ content ++ htmlTemplatePost

/-- The full document written by `main` (the string passed to
`out_path.write_text`). -/
def mainHtml (fs : String → Option Notebook) (ids : List String) : String :=
  htmlPage (navHtml (mainSections fs ids)) (contentHtml (mainSections fs ids))

/-! ## Helper lemmas about the Gini pipeline -/

theorem dedupByCode_sublist (L : List GiniRow) : List.Sublist (dedupByCode L) L := by
  induction L using dedupByCode.induct with
  | case1 => simp [dedupByCode]
  | case2 r t ih =>
    rw [dedupByCode]
    exact (ih.trans (List.filter_sublist t)).cons₂ r

theorem mem_of_mem_dedupByCode {L : List GiniRow} {r : GiniRow}
    (h : r ∈ dedupByCode L) : r ∈ L :=
  (dedupByCode_sublist L).subset h

theorem dedupByCode_codes_pairwise (L : List GiniRow) :
    (dedupByCode L).Pairwise (fun a b => a.country_code ≠ b.country_code) := by
  induction L using dedupByCode.induct with
  | case1 => simp [dedupByCode]
  | case2 r t ih =>
    rw [dedupByCode]
    refine List.Pairwise.cons (fun b hb => ?_) ih
    exact (of_decide_eq_true (List.mem_filter.1 (mem_of_mem_dedupByCode hb)).2).symm

theorem dedupByCode_code_mem {L : List GiniRow} {c : String}
    (h : c ∈ L.map (·.country_code)) :
    ∃ r ∈ dedupByCode L, r.country_code = c := by
  induction L using dedupByCode.induct with
  | case1 => simp at h
  | case2 r t ih =>
    rw [dedupByCode]
    by_cases hc : r.country_code = c
    · exact ⟨r, List.mem_cons_self _ _, hc⟩
    · simp only [List.map_cons, List.mem_cons] at h
      rcases h with h | h
      · exact absurd h.symm hc
      · rcases List.mem_map.1 h with ⟨q, hq, hqc⟩
        have hq' : q ∈ t.filter (fun s => s.country_code ≠ r.country_code) := by
          refine List.mem_filter.2 ⟨hq, decide_eq_true ?_⟩
          rw [hqc]
          exact fun h' => hc h'.symm
        rcases ih (List.mem_map.2 ⟨q, hq', hqc⟩) with ⟨p, hp, hpc⟩
        exact ⟨p, List.mem_cons_of_mem _ hp, hpc⟩

theorem dedupByCode_year_max {L : List GiniRow}
    (hL : L.Pairwise (fun a b => b.year ≤ a.year)) {r : GiniRow}
    (hr : r ∈ dedupByCode L) {q : GiniRow} (hq : q ∈ L)
    (hc : q.country_code = r.country_code) : q.year ≤ r.year := by
  induction L using dedupByCode.induct with
  | case1 => simp at hq
  | case2 a t ih =>
    rw [dedupByCode, List.mem_cons] at hr
    rcases hr with hr | hr
    · subst hr
      rcases List.mem_cons.1 hq with h | h
      · exact h ▸ le_refl _
      · exact (List.pairwise_cons.1 hL).1 q h
    · have hrcode : r.country_code ≠ a.country_code :=
        of_decide_eq_true (List.mem_filter.1 (mem_of_mem_dedupByCode hr)).2
      rcases List.mem_cons.1 hq with h | h
      · exact absurd (h ▸ hc).symm hrcode
      · have hq' : q ∈ t.filter (fun s => s.country_code ≠ a.country_code) := by
          refine List.mem_filter.2 ⟨h, decide_eq_true ?_⟩
          rw [hc]
          exact hrcode
        have hL' : (t.filter (fun s => s.country_code ≠ a.country_code)).Pairwise
            (fun a b => b.year ≤ a.year) :=
          (List.pairwise_cons.1 hL).2.sublist (List.filter_sublist t)
        exact ih hL' hr hq'

theorem insertYearDesc_eq_cons {r : GiniRow} {t : List GiniRow}
    (h : ∀ q ∈ t, q.year ≤ r.year) : insertYearDesc r t = r :: t := by
  cases t with
  | nil => rfl
  | cons q t' =>
    rw [insertYearDesc, if_pos (h q (List.mem_cons_self _ _))]

/-- The sort is the identity on an input already sorted by descending
year. -/
theorem sortYearDesc_eq_self {L : List GiniRow}
    (h : L.Pairwise (fun a b => b.year ≤ a.year)) : sortYearDesc L = L := by
  induction L with
  | nil => rfl
  | cons r t ih =>
    rw [sortYearDesc, ih (List.pairwise_cons.1 h).2,
      insertYearDesc_eq_cons (List.pairwise_cons.1 h).1]

/-- Rows of a year-tagged flat map carry one of the listed years. -/
theorem mem_yearBlocks_year {fetch : Int → List WBRow} {ys : List Int}
    {r : GiniRow}
    (h : r ∈ ys.flatMap fun y =>
      (fetch y).map fun w => ⟨w.country_code, w.country_name, w.value, y⟩) :
    r.year ∈ ys := by
  rw [List.mem_flatMap] at h
  rcases h with ⟨y, hy, hr⟩
  rcases List.mem_map.1 hr with ⟨w, _, hw⟩
  rw [← hw]
  exact hy

theorem descYears_pairwise (s e : Int) :
    (descYears s e).Pairwise (fun a b => b < a) := by
  rw [descYears]
  refine List.pairwise_map.2 (List.Pairwise.imp ?_ (List.pairwise_lt_range _))
  intro i j h
  omega

theorem yearBlocks_sorted (fetch : Int → List WBRow) :
    ∀ ys : List Int, ys.Pairwise (fun a b => b < a) →
      (ys.flatMap fun y =>
        (fetch y).map fun w => ⟨w.country_code, w.country_name, w.value, y⟩ :
          List GiniRow).Pairwise (fun a b => b.year ≤ a.year) := by
  intro ys
  induction ys with
  | nil => intro _; simp
  | cons y ys ih =>
    intro hy
    rw [List.flatMap_cons]
    refine List.pairwise_append.2 ⟨?_, ih (List.pairwise_cons.1 hy).2, ?_⟩
    · refine List.pairwise_map.2 ?_
      refine List.pairwise_iff_forall_sublist.2 ?_
      intro a b _
      exact le_refl y
    · intro a ha b hb
      rcases List.mem_map.1 ha with ⟨w, _, hw⟩
      have hb' : b.year ∈ ys := mem_yearBlocks_year hb
      have hlt : b.year < y := (List.pairwise_cons.1 hy).1 _ hb'
      rw [← hw]
      exact le_of_lt hlt

/-- The concatenation of the per-year frames is sorted by descending year:
the candidate years strictly decrease and every row of a per-year frame is
tagged with its year. -/
theorem giniCombined_sorted (fetch : Int → List WBRow) (s e : Int) :
    (giniCombined fetch s e).Pairwise (fun a b => b.year ≤ a.year) :=
  yearBlocks_sorted fetch (descYears s e) (descYears_pairwise s e)

/-! ## Claim theorems -/

/-- C1: for every multi-year Gini dataset assembled by `fetch_gini` (the
year-tagged concatenation `giniCombined` of the per-year fetch results,
iterating candidate years from the most recent to the oldest), the
deduplication step (`sort_values("year", ascending=False)` followed by
`drop_duplicates(subset=["country_code"], keep="first")`) keeps exactly one
row per country code, and for every country that row is a row of the combined
data whose year is the highest year in which that country appears. -/
theorem fetch_gini_latest_wins (fetch : Int → List WBRow) (s e : Int)
    (c : String) (hc : c ∈ (giniCombined fetch s e).map (·.country_code)) :
    ∃ r, (r ∈ dedupByCode (sortYearDesc (giniCombined fetch s e)) ∧
        r.country_code = c) ∧
      (∀ r' ∈ dedupByCode (sortYearDesc (giniCombined fetch s e)),
        r'.country_code = c → r' = r) ∧
      r ∈ giniCombined fetch s e ∧
      ∀ q ∈ giniCombined fetch s e, q.country_code = c → q.year ≤ r.year := by
  have hsorted := giniCombined_sorted fetch s e
  rw [sortYearDesc_eq_self hsorted]
  obtain ⟨r, hr, hrc⟩ := dedupByCode_code_mem hc
  refine ⟨r, ⟨hr, hrc⟩, ?_, mem_of_mem_dedupByCode hr, ?_⟩
  · intro r' hr' hrc'
    by_contra hne
    have hsymm : Symmetric fun a b : GiniRow =>
        a.country_code ≠ b.country_code := fun _ _ h => h.symm
    exact (dedupByCode_codes_pairwise _).forall hsymm hr' hr hne (hrc'.trans hrc.symm)
  · intro q hq hqc
    exact dedupByCode_year_max hsorted hr hq (hqc.trans hrc.symm)

/-- The concrete per-year fetch used to witness `fetch_gini_latest_wins`. -/
def giniWitnessFetch : Int → List WBRow := fun y =>
  if y = 2022 then [⟨"USA", "United States", mkRat 398 10⟩]
  else if y = 2020 then [⟨"USA", "United States", mkRat 397 10⟩]
  else []

/-- Witness for C1 at a concrete fetch function: the country `USA` appears in
the combined data (in years 2022 and 2020), and the deduplication keeps
exactly one `USA` row, carrying the highest year. -/
theorem fetch_gini_latest_wins_witness :
    ("USA" ∈ (giniCombined giniWitnessFetch 2018 2022).map (·.country_code)) ∧
      ∃ r, (r ∈ dedupByCode (sortYearDesc (giniCombined giniWitnessFetch 2018 2022)) ∧
          r.country_code = "USA") ∧
        (∀ r' ∈ dedupByCode (sortYearDesc (giniCombined giniWitnessFetch 2018 2022)),
          r'.country_code = "USA" → r' = r) ∧
        r ∈ giniCombined giniWitnessFetch 2018 2022 ∧
        ∀ q ∈ giniCombined giniWitnessFetch 2018 2022,
          q.country_code = "USA" → q.year ≤ r.year :=
  ⟨by decide, fetch_gini_latest_wins giniWitnessFetch 2018 2022 "USA" (by decide)⟩

set_option maxRecDepth 40000 in
/-- The fallback Gini rows have pairwise distinct country codes (the Python
dict `_GINI_FALLBACK` is keyed by country code). -/
theorem giniFallback_codes_pairwise :
    giniFallbackRows.Pairwise (fun a b => a.country_code ≠ b.country_code) := by
  decide

/-- C9: in the result of `fetch_gini`, every country code appears at most
once, on both paths: the live path deduplicates by country code, and the
fallback path enumerates a dict keyed by country code. -/
theorem fetch_gini_codes_unique (fetch : Int → List WBRow) (s e : Int) :
    (fetch_gini fetch s e).Pairwise
      (fun a b => a.country_code ≠ b.country_code) := by
  simp only [fetch_gini]
  split
  · exact giniFallback_codes_pairwise
  · split
    · refine List.pairwise_map.2 ?_
      exact dedupByCode_codes_pairwise _
    · exact giniFallback_codes_pairwise

/-- C2: if the underlying fetch yields fewer than 100 rows, `fetch_population`
returns exactly the rows of the embedded population fallback table, and if the
combined deduplicated Gini data has fewer than 50 rows (or no year returned
data), `fetch_gini` returns exactly the rows of the embedded Gini fallback
table. -/
theorem fallback_below_threshold (o : FetchOutcome)
    (fetch : Int → List WBRow) (s e : Int) :
    ((fetch_world_bank_indicator o).length < 100 →
      fetch_population o = populationFallbackRows) ∧
    ((giniCombined fetch s e = [] ∨
        (dedupByCode (sortYearDesc (giniCombined fetch s e))).length < 50) →
      fetch_gini fetch s e = giniFallbackRows) := by
  constructor
  · intro h
    simp only [fetch_population]
    rw [if_neg (by omega)]
  · intro h
    simp only [fetch_gini]
    rcases h with h | h
    · rw [if_pos (by simp [h])]
    · by_cases h0 : (giniCombined fetch s e).isEmpty
      · rw [if_pos h0]
      · rw [if_neg h0, if_neg (by omega)]

/-- Witness for C2: an errored population fetch (0 rows) falls back, and a
fetch function returning no data in any year makes `fetch_gini` fall back. -/
theorem fallback_below_threshold_witness :
    ((fetch_world_bank_indicator .error).length < 100 ∧
      fetch_population .error = populationFallbackRows) ∧
    ((giniCombined (fun _ => []) 2018 2022 = [] ∨
        (dedupByCode (sortYearDesc (giniCombined (fun _ => []) 2018 2022))).length < 50) ∧
      fetch_gini (fun _ => []) 2018 2022 = giniFallbackRows) :=
  ⟨⟨by decide, (fallback_below_threshold .error (fun _ => []) 2018 2022).1 (by decide)⟩,
   ⟨Or.inl (by decide),
    (fallback_below_threshold .error (fun _ => []) 2018 2022).2 (Or.inl (by decide))⟩⟩

/-- C3: `fetch_world_bank_indicator` never propagates an error: every caught
exception yields the empty frame, a short envelope or a null records element
yields the empty frame, and on a well-formed envelope the result contains
exactly the entries whose country code has length 3 and whose value is
non-null. -/
theorem fetch_wb_indicator_error_handling :
    fetch_world_bank_indicator .error = [] ∧
    (∀ data : List (Option (List WBEntry)), data.length < 2 →
      fetch_world_bank_indicator (.ok data) = []) ∧
    (∀ data : List (Option (List WBEntry)), data[1]? = some none →
      fetch_world_bank_indicator (.ok data) = []) ∧
    (∀ (data : List (Option (List WBEntry))) (entries : List WBEntry),
      data[1]? = some (some entries) →
      ∀ row, row ∈ fetch_world_bank_indicator (.ok data) ↔
        ∃ en ∈ entries, en.value = some row.value ∧
          (en.country_id.getD "").length = 3 ∧
          row.country_code = en.country_id.getD "" ∧
          row.country_name = en.country_name.getD "") := by
  refine ⟨rfl, ?_, ?_, ?_⟩
  · intro data h
    simp [fetch_world_bank_indicator, h]
  · intro data h
    have h2 : ¬ data.length < 2 := by
      rcases data with _ | ⟨a, _ | ⟨b, t⟩⟩ <;> simp_all
    simp [fetch_world_bank_indicator, h2, h]
  · intro data entries h row
    have h2 : ¬ data.length < 2 := by
      rcases data with _ | ⟨a, _ | ⟨b, t⟩⟩ <;> simp_all
    simp only [fetch_world_bank_indicator, if_neg h2, h]
    rw [wbRows, List.mem_filterMap]
    constructor
    · rintro ⟨en, hen, hsome⟩
      refine ⟨en, hen, ?_⟩
      rcases hv : en.value with _ | v
      · simp only [hv] at hsome
        exact Option.noConfusion hsome
      · simp only [hv] at hsome
        by_cases hlen : (en.country_id.getD "").length = 3
        · rw [if_pos hlen] at hsome
          have := Option.some.inj hsome
          refine ⟨?_, hlen, ?_, ?_⟩ <;> simp [← this, hv]
        · rw [if_neg hlen] at hsome
          exact absurd hsome (by simp)
    · rintro ⟨en, hen, hval, hlen, hcode, hname⟩
      refine ⟨en, hen, ?_⟩
      simp only [hval]
      rw [if_pos hlen]
      cases row
      simp_all

/-- The record entries of the envelope used to witness C3: one valid entry,
one null-valued entry, one entry with a malformed (2-letter) country code. -/
def wbWitnessEntries : List WBEntry :=
  [⟨some "USA", some "United States", some (mkRat 398 10)⟩,
   ⟨some "USA", some "United States", none⟩,
   ⟨some "ZZ", some "Bad", some (mkRat 1 1)⟩]

/-- The envelope used to witness C3. -/
def wbWitnessData : List (Option (List WBEntry)) := [none, some wbWitnessEntries]

/-- Witness for C3: on the concrete well-formed envelope, the valid entry's
row is in the result. -/
theorem fetch_wb_indicator_error_handling_witness :
    wbWitnessData[1]? = some (some wbWitnessEntries) ∧
    (⟨"USA", "United States", mkRat 398 10⟩ : WBRow) ∈
      fetch_world_bank_indicator (.ok wbWitnessData) :=
  ⟨by decide,
   (fetch_wb_indicator_error_handling.2.2.2 wbWitnessData wbWitnessEntries
       (by decide) _).mpr
     ⟨⟨some "USA", some "United States", some (mkRat 398 10)⟩,
      by decide, by decide, by decide, by decide, by decide⟩⟩

/-- C8 (refuted — code bug): the empty frames built by the two explicit
`pd.DataFrame(columns=[...])` constructions do carry the three-column schema,
but on a well-formed envelope whose record list yields no rows (for example
`[metadata, []]`), `pd.DataFrame(rows)` with `rows == []` produces a frame
with *no* columns, contradicting the function's docstring ("Returns a
DataFrame with columns: country_code, country_name, value"). -/
theorem wb_columns_not_always_schema :
    wb_columns .error = ["country_code", "country_name", "value"] ∧
    wb_columns (.ok [none, none]) = ["country_code", "country_name", "value"] ∧
    wb_columns (.ok [none, some []]) = [] ∧
    wb_columns (.ok [none, some []]) ≠ ["country_code", "country_name", "value"] := by
  refine ⟨rfl, rfl, rfl, ?_⟩
  decide

set_option maxRecDepth 200000 in
/-- C5: in every embedded fallback table, every value pairs a country name
with a non-negative number — and the strictness levels all lie between 1 and
5 inclusive. -/
theorem fallback_tables_values_in_range :
    (∀ en ∈ _POPULATION_FALLBACK, 0 ≤ en.2.2) ∧
    (∀ en ∈ _GINI_FALLBACK, 0 ≤ en.2.2) ∧
    (∀ en ∈ _GUN_HOMICIDE_FALLBACK, 0 ≤ en.2.2) ∧
    (∀ en ∈ _DRUG_OFFENSE_FALLBACK, 0 ≤ en.2.2) ∧
    (∀ en ∈ _GUN_OWNERSHIP_FALLBACK, 0 ≤ en.2.2) ∧
    (∀ en ∈ _GUN_CONTROL_STRICTNESS_FALLBACK, 1 ≤ en.2.2 ∧ en.2.2 ≤ 5) := by
  refine ⟨?_, ?_, ?_, ?_, ?_, ?_⟩ <;> decide

/-- C6: the non-live indicator accessors are constants: each returns exactly
one row per entry of its embedded static table, with the entry's fields, and
(taking no input at all) cannot depend on the network. -/
theorem static_accessors_return_tables :
    (get_gun_homicide_rates.length = _GUN_HOMICIDE_FALLBACK.length ∧
      ∀ c n v, (⟨c, n, v⟩ : HomicideRow) ∈ get_gun_homicide_rates ↔
        (c, n, v) ∈ _GUN_HOMICIDE_FALLBACK) ∧
    (get_drug_offense_rates.length = _DRUG_OFFENSE_FALLBACK.length ∧
      ∀ c n v, (⟨c, n, v⟩ : DrugRow) ∈ get_drug_offense_rates ↔
        (c, n, v) ∈ _DRUG_OFFENSE_FALLBACK) ∧
    (get_gun_ownership_rates.length = _GUN_OWNERSHIP_FALLBACK.length ∧
      ∀ c n v, (⟨c, n, v⟩ : OwnershipRow) ∈ get_gun_ownership_rates ↔
        (c, n, v) ∈ _GUN_OWNERSHIP_FALLBACK) ∧
    (get_gun_control_strictness.length = _GUN_CONTROL_STRICTNESS_FALLBACK.length ∧
      ∀ c n v, (⟨c, n, v⟩ : StrictnessRow) ∈ get_gun_control_strictness ↔
        (c, n, v) ∈ _GUN_CONTROL_STRICTNESS_FALLBACK) ∧
    (get_country_regions.length = _COUNTRY_REGIONS.length ∧
      ∀ c g, (⟨c, g⟩ : RegionRow) ∈ get_country_regions ↔
        (c, g) ∈ _COUNTRY_REGIONS) := by
  refine ⟨⟨?_, ?_⟩, ⟨?_, ?_⟩, ⟨?_, ?_⟩, ⟨?_, ?_⟩, ⟨?_, ?_⟩⟩
  · simp [get_gun_homicide_rates]
  · intro c n v
    simp only [get_gun_homicide_rates, List.mem_map]
    constructor
    · rintro ⟨⟨e1, e2, e3⟩, hen, heq⟩
      cases heq
      exact hen
    · intro hmem
      exact ⟨(c, n, v), hmem, rfl⟩
  · simp [get_drug_offense_rates]
  · intro c n v
    simp only [get_drug_offense_rates, List.mem_map]
    constructor
    · rintro ⟨⟨e1, e2, e3⟩, hen, heq⟩
      cases heq
      exact hen
    · intro hmem
      exact ⟨(c, n, v), hmem, rfl⟩
  · simp [get_gun_ownership_rates]
  · intro c n v
    simp only [get_gun_ownership_rates, List.mem_map]
    constructor
    · rintro ⟨⟨e1, e2, e3⟩, hen, heq⟩
      cases heq
      exact hen
    · intro hmem
      exact ⟨(c, n, v), hmem, rfl⟩
  · simp [get_gun_control_strictness]
  · intro c n v
    simp only [get_gun_control_strictness, List.mem_map]
    constructor
    · rintro ⟨⟨e1, e2, e3⟩, hen, heq⟩
      cases heq
      exact hen
    · intro hmem
      exact ⟨(c, n, v), hmem, rfl⟩
  · simp [get_country_regions]
  · intro c g
    simp only [get_country_regions, List.mem_map]
    constructor
    · rintro ⟨⟨e1, e2⟩, hen, heq⟩
      cases heq
      exact hen
    · intro hmem
      exact ⟨(c, g), hmem, rfl⟩

/-! ## Helper lemmas about the report generator -/

/-- Whether a code-cell output carries an embedded plotly chart payload (the
only kind of output whose fragment depends on the generated random
identifier). -/
def outputHasPlotly : CellOutput → Bool
  | .displayData d => d.plotly.isSome
  | .executeResult d => d.plotly.isSome
  | .stream _ => false
  | .otherOutput => false

/-- Whether any output of a cell carries a plotly chart payload. -/
def cellHasPlotly : Cell → Bool
  | .markdown _ => false
  | .code outs => outs.any outputHasPlotly
  | .otherCell => false

theorem renderData_indep {d : MimeData} (h : d.plotly = none)
    (ids ids' : List String) : renderData d ids = ((renderData d ids').1, ids) := by
  unfold renderData
  rw [h]
  cases htm : d.textHtml with
  | some pieces =>
    by_cases hc : containsSub "<table" (String.join pieces) = true <;> simp [hc]
  | none => cases d.imagePng <;> rfl

theorem renderOutput_indep {o : CellOutput} (h : outputHasPlotly o = false)
    (ids ids' : List String) :
    renderOutput o ids = ((renderOutput o ids').1, ids) := by
  cases o with
  | displayData d =>
    exact renderData_indep (Option.not_isSome_iff_eq_none.1 (by simpa [outputHasPlotly] using h)) ids ids'
  | executeResult d =>
    exact renderData_indep (Option.not_isSome_iff_eq_none.1 (by simpa [outputHasPlotly] using h)) ids ids'
  | stream text =>
    by_cases ht : (String.join text).trim ≠ "" <;> simp [renderOutput, ht]
  | otherOutput => rfl

theorem processOutputs_indep {outs : List CellOutput}
    (h : ∀ o ∈ outs, outputHasPlotly o = false) (ids ids' : List String) :
    processOutputs outs ids = ((processOutputs outs ids').1, ids) := by
  induction outs generalizing ids ids' with
  | nil => rfl
  | cons o rest ih =>
    have ho := h o (List.mem_cons_self _ _)
    have hrest : ∀ q ∈ rest, outputHasPlotly q = false :=
      fun q hq => h q (List.mem_cons_of_mem _ hq)
    simp only [processOutputs]
    rw [renderOutput_indep ho ids ids', renderOutput_indep ho ids' ids']
    simp only
    rw [ih hrest ids ids']

theorem processCell_indep {c : Cell} (h : cellHasPlotly c = false)
    (ids ids' : List String) :
    processCell c ids = ((processCell c ids').1, ids) := by
  cases c with
  | markdown source => rfl
  | code outs =>
    have : ∀ o ∈ outs, outputHasPlotly o = false := by
      simpa [cellHasPlotly, List.any_eq_false] using h
    exact processOutputs_indep this ids ids'
  | otherCell => rfl

theorem processCells_indep {cells : List Cell}
    (h : ∀ c ∈ cells, cellHasPlotly c = false) (ids ids' : List String) :
    processCells cells ids = ((processCells cells ids').1, ids) := by
  induction cells generalizing ids ids' with
  | nil => rfl
  | cons c rest ih =>
    have hc := h c (List.mem_cons_self _ _)
    have hrest : ∀ q ∈ rest, cellHasPlotly q = false :=
      fun q hq => h q (List.mem_cons_of_mem _ hq)
    simp only [processCells]
    rw [processCell_indep hc ids ids', processCell_indep hc ids' ids']
    simp only
    rw [ih hrest ids ids']

/-- A one-cell notebook whose single code cell outputs a plotly chart. -/
def nbWithChart : Notebook :=
  ⟨[Cell.code [CellOutput.displayData ⟨some ⟨"[]", "null"⟩, none, none⟩]]⟩

/-- C4 counterexample: extraction is *not* a function of the notebook alone —
on a notebook with a chart output, two runs that draw different
`uuid.uuid4().hex[:12]` identifiers produce different HTML fragments, because
the drawn identifier is spliced into the chart's `div` id. -/
theorem extract_outputs_not_deterministic :
    extract_outputs nbWithChart ["aaaaaaaaaaaa"] ≠
      extract_outputs nbWithChart ["bbbbbbbbbbbb"] := by
  decide

/-- C4 (amended): extraction restricted to notebooks none of whose outputs
embeds a plotly chart is deterministic — the extracted HTML fragment does not
depend on the drawn identifier stream, so re-running on an unchanged notebook
produces a byte-identical fragment. -/
theorem extract_outputs_deterministic_without_charts (nb : Notebook)
    (ids₁ ids₂ : List String) (h : ∀ c ∈ nb.cells, cellHasPlotly c = false) :
    extract_outputs nb ids₁ = extract_outputs nb ids₂ := by
  simp only [extract_outputs, extractOutputsAux]
  rw [processCells_indep h ids₁ ids₂]

/-- Witness for the amended C4 on a concrete chart-free notebook (a markdown
cell, a table output and a stream output) with two different identifier
streams. -/
theorem extract_outputs_deterministic_without_charts_witness :
    (∀ c ∈ (⟨[Cell.markdown ["# Title"],
        Cell.code [CellOutput.stream ["hello\n"]]]⟩ : Notebook).cells,
      cellHasPlotly c = false) ∧
    extract_outputs ⟨[Cell.markdown ["# Title"],
        Cell.code [CellOutput.stream ["hello\n"]]]⟩ ["aaaaaaaaaaaa"] =
      extract_outputs ⟨[Cell.markdown ["# Title"],
        Cell.code [CellOutput.stream ["hello\n"]]]⟩ ["bbbbbbbbbbbb"] :=
  ⟨by decide,
   extract_outputs_deterministic_without_charts _ _ _ (by decide)⟩

/-- A cell that is a code cell with no outputs appends no parts and consumes
no identifiers. -/
theorem processCells_all_outputless {cells : List Cell}
    (h : ∀ c ∈ cells, c = Cell.code []) (ids : List String) :
    processCells cells ids = ([], ids) := by
  induction cells with
  | nil => rfl
  | cons c rest ih =>
    have hc := h c (List.mem_cons_self _ _)
    subst hc
    simp only [processCells, processCell, processOutputs]
    exact ih (fun q hq => h q (List.mem_cons_of_mem _ hq)) 

/-- Extraction of a notebook all of whose cells are outputless code cells
(in particular, of a notebook with no cells) yields the empty string. -/
theorem extract_outputs_all_outputless {nb : Notebook}
    (h : ∀ c ∈ nb.cells, c = Cell.code []) (ids : List String) :
    extract_outputs nb ids = "" := by
  simp only [extract_outputs, extractOutputsAux]
  rw [processCells_all_outputless h ids]
  rfl

theorem mainSectionsAux_all_empty_yield {fs : String → Option Notebook}
    (h : ∀ name nb, fs name = some nb → ∀ c ∈ nb.cells, c = Cell.code [])
    (names : List String) (ids : List String) :
    mainSectionsAux fs names ids = ([], ids) := by
  induction names generalizing ids with
  | nil => rfl
  | cons name rest ih =>
    simp only [mainSectionsAux]
    cases hf : fs name with
    | none => exact ih ids
    | some nb =>
      have he : extractOutputsAux nb ids = ("", ids) := by
        simp only [extractOutputsAux]
        rw [processCells_all_outputless (h name nb hf) ids]
        rfl
      simp [he, ih ids]

/-- C10: a notebook that exists but whose cells yield no HTML fragments (a
notebook with no cells, or with only code cells without outputs) contributes
neither a content section nor a navigation entry: `extract_outputs` returns
the empty string and `main` excludes empty fragments from the section
list. -/
theorem empty_notebooks_contribute_nothing (fs : String → Option Notebook)
    (ids : List String)
    (h : ∀ name nb, fs name = some nb → ∀ c ∈ nb.cells, c = Cell.code []) :
    (∀ name nb, fs name = some nb → extract_outputs nb ids = "") ∧
    mainSections fs ids = [] := by
  constructor
  · intro name nb hf
    exact extract_outputs_all_outputless (h name nb hf) ids
  · simp only [mainSections]
    rw [mainSectionsAux_all_empty_yield h NOTEBOOKS ids]

/-- Witness for C10: a filesystem on which every notebook file exists with
empty cell list contributes no sections. -/
theorem empty_notebooks_contribute_nothing_witness :
    (∀ name nb, (fun _ : String => some (⟨[]⟩ : Notebook)) name = some nb →
      ∀ c ∈ nb.cells, c = Cell.code []) ∧
    ((∀ name nb, (fun _ : String => some (⟨[]⟩ : Notebook)) name = some nb →
        extract_outputs nb ["cccccccccccc"] = "") ∧
      mainSections (fun _ : String => some (⟨[]⟩ : Notebook)) ["cccccccccccc"] = []) :=
  ⟨fun _ nb hf => by
      cases Option.some.inj hf
      intro c hc
      exact absurd hc (List.not_mem_nil c),
   empty_notebooks_contribute_nothing _ _
     (fun _ nb hf => by
        cases Option.some.inj hf
        intro c hc
        exact absurd hc (List.not_mem_nil c))⟩

theorem mainSectionsAux_all_missing {fs : String → Option Notebook}
    (names : List String) (h : ∀ nb ∈ names, fs nb = none) (ids : List String) :
    mainSectionsAux fs names ids = ([], ids) := by
  induction names with
  | nil => rfl
  | cons name rest ih =>
    simp only [mainSectionsAux, h name (List.mem_cons_self _ _)]
    exact ih fun q hq => h q (List.mem_cons_of_mem _ hq)

/-- C7: when none of the notebook files in the fixed list exists, report
generation still succeeds: every missing file is skipped, the section list is
empty, and the written output is exactly the fixed HTML shell (document head,
embedded stylesheet, page header, footer) with an empty navigation block and
zero content sections. -/
theorem report_with_no_notebooks (fs : String → Option Notebook)
    (ids : List String) (h : ∀ nb ∈ NOTEBOOKS, fs nb = none) :
    mainSections fs ids = [] ∧
    mainHtml fs ids = htmlPage "" "" ∧
    htmlPage "" "" = htmlTemplatePre ++ htmlTemplateMid ++ htmlTemplatePost := by
  have hs : mainSections fs ids = [] := by
    simp only [mainSections]
    rw [mainSectionsAux_all_missing NOTEBOOKS h ids]
  refine ⟨hs, ?_, ?_⟩
  · simp only [mainHtml, hs]
    rfl
  · simp only [htmlPage, String.append_empty]

/-- Witness for C7: the filesystem with no files at all. -/
theorem report_with_no_notebooks_witness :
    (∀ nb ∈ NOTEBOOKS, (fun _ : String => (none : Option Notebook)) nb = none) ∧
    (mainSections (fun _ : String => (none : Option Notebook)) [] = [] ∧
      mainHtml (fun _ : String => (none : Option Notebook)) [] = htmlPage "" "" ∧
      htmlPage "" "" = htmlTemplatePre ++ htmlTemplateMid ++ htmlTemplatePost) :=
  ⟨fun _ _ => rfl,
   report_with_no_notebooks (fun _ => none) [] (fun _ _ => rfl)⟩
